import Mathlib

/-!
# The nvJPEG encode sweep of `main.cpp`

A shallow embedding of `src/main.cpp`: the per-trial routine `attempt_encode`,
the process wrapper `fork_attempt` and the sweep in `main`.

* C `int` values are `Int`s; every `int` operation wraps to 32 bits
  (`wrap32`), the two's-complement result of the target hardware.
* Every CUDA / nvJPEG call is answered by an oracle that gives the status of
  the k-th call of the process; the process state records the calls made and
  the chunks written to standard output.
* `std::exit` ends a program: `Step.exited` carries the exit code.
-/

namespace NvjpegSweep

/-! ## Enumerations of nvjpeg.h -/

/-- Modelled from the spec: the type `nvjpegChromaSubsampling_t` is declared in
nvjpeg.h, which is not part of the repository. The six enumerators are the ones
`main.cpp` names; `other raw` stands for any further value of the C enum type,
the values that reach the `default:` branches. -/
inductive nvjpegChromaSubsampling_t
  | NVJPEG_CSS_444
  | NVJPEG_CSS_422
  | NVJPEG_CSS_420
  | NVJPEG_CSS_440
  | NVJPEG_CSS_411
  | NVJPEG_CSS_410
  | other (raw : Int)
  deriving DecidableEq, Repr

/-- Modelled from the spec: the type `nvjpegOutputFormat_t` is declared in
nvjpeg.h, which is not part of the repository. The five enumerators are the
ones `main.cpp` names; `other raw` stands for any further value of the C enum
type, the values that reach the `default:` branches. -/
inductive nvjpegOutputFormat_t
  | NVJPEG_OUTPUT_YUV
  | NVJPEG_OUTPUT_RGB
  | NVJPEG_OUTPUT_BGR
  | NVJPEG_OUTPUT_RGBI
  | NVJPEG_OUTPUT_BGRI
  | other (raw : Int)
  deriving DecidableEq, Repr

open nvjpegChromaSubsampling_t nvjpegOutputFormat_t

/-- Text of a subsampling value, `css_to_cstr` of main.cpp (lines 46-63). -/
def css_to_cstr : nvjpegChromaSubsampling_t → String
  | NVJPEG_CSS_444 => "4:4:4"
  | NVJPEG_CSS_422 => "4:2:2"
  | NVJPEG_CSS_420 => "4:2:0"
  | NVJPEG_CSS_440 => "4:4:0"
  | NVJPEG_CSS_411 => "4:1:1"
  | NVJPEG_CSS_410 => "4:1:0"
  | .other _ => "unknown"

/-- Text of an output format, `fmt_to_cstr` of main.cpp (lines 65-80). -/
def fmt_to_cstr : nvjpegOutputFormat_t → String
  | NVJPEG_OUTPUT_YUV => "YUV"
  | NVJPEG_OUTPUT_RGB => "RGB"
  | NVJPEG_OUTPUT_BGR => "BGR"
  | NVJPEG_OUTPUT_RGBI => "RGBI"
  | NVJPEG_OUTPUT_BGRI => "BGRI"
  | .other _ => "unknown"

/-! ## 32-bit `int` arithmetic -/

/-- Value of a mathematical integer as a 32-bit two's-complement `int`. Signed
overflow is undefined in C++; the model takes the wrapped result that the
hardware instruction gives. Within the `int` range nothing changes. -/
def wrap32 (z : Int) : Int := (z + 2147483648) % 4294967296 - 2147483648

/-- The `int` sum `a + b`. -/
def add32 (a b : Int) : Int := wrap32 (a + b)

/-- The `int` difference `a - b`. -/
def sub32 (a b : Int) : Int := wrap32 (a - b)

/-- The `int` product `a * b`. -/
def mul32 (a b : Int) : Int := wrap32 (a * b)

/-- The `int` quotient `a / b`: C division truncates toward zero. -/
def div32 (a b : Int) : Int := wrap32 (Int.tdiv a b)

/-- Conversion of an `int` to the 64-bit `size_t` parameter of `cudaMalloc`. -/
def to_size_t (v : Int) : Nat := (v % 18446744073709551616).toNat

/-! ## Format and subsampling resolution, plane geometry -/

/-- The `switch (fmt)` of attempt_encode (lines 103-129): the pair
`(num_channels, channel_mult)`, or `none` for the `default:` branch. -/
def resolve_format : nvjpegOutputFormat_t → Option (Nat × Int)
  | NVJPEG_OUTPUT_YUV => some (3, 1)
  | NVJPEG_OUTPUT_RGB => some (3, 1)
  | NVJPEG_OUTPUT_BGR => some (3, 1)
  | NVJPEG_OUTPUT_RGBI => some (1, 3)
  | NVJPEG_OUTPUT_BGRI => some (1, 3)
  | .other _ => none

/-- The `switch (css)` of attempt_encode (lines 133-161), entered for the YUV
format only: the pair `(mult_x, mult_y)`, or `none` for the `default:`
branch. -/
def resolve_css : nvjpegChromaSubsampling_t → Option (Int × Int)
  | NVJPEG_CSS_444 => some (1, 1)
  | NVJPEG_CSS_422 => some (2, 1)
  | NVJPEG_CSS_420 => some (2, 2)
  | NVJPEG_CSS_440 => some (1, 2)
  | NVJPEG_CSS_411 => some (4, 1)
  | NVJPEG_CSS_410 => some (4, 2)
  | .other _ => none

/-- Lines 130-162 of attempt_encode: `mult_x = mult_y = 1`, replaced by the
result of the subsampling switch when the format is YUV. -/
def resolve_mult (fmt : nvjpegOutputFormat_t) (css : nvjpegChromaSubsampling_t) :
    Option (Int × Int) :=
  if fmt = NVJPEG_OUTPUT_YUV then resolve_css css else some (1, 1)

/-- The value `aw` of channel `i` after line 171 of attempt_encode. -/
def plane_aw (size_x mult_x : Int) (i : Nat) : Int :=
  let aw := if i = 0 then size_x
    else mul32 (div32 (sub32 (add32 size_x mult_x) 1) mult_x) mult_x
  mul32 (div32 (add32 aw 3) 4) 4

/-- The value `ah` of channel `i` at line 173 of attempt_encode. -/
def plane_ah (size_y mult_y : Int) (i : Nat) : Int :=
  if i = 0 then size_y
  else mul32 (div32 (sub32 (add32 size_y mult_y) 1) mult_y) mult_y

/-- The `int` expression `aw * ah` of line 174. -/
def plane_bytes (size_x size_y mult_x mult_y : Int) (i : Nat) : Int :=
  mul32 (plane_aw size_x mult_x i) (plane_ah size_y mult_y i)

/-! ## Processes -/

/-- Modelled from the spec: EXIT_SUCCESS comes from the C library header, which
is not part of the repository; it is the exit status 0 of a trial that ends
well. -/
def EXIT_SUCCESS : Nat := 0

/-- Modelled from the spec: EXIT_FAILURE comes from the C library header, which
is not part of the repository; it is the failure status, 1, of a trial. -/
def EXIT_FAILURE : Nat := 1

/-- Outcome of running a piece of a process from a state: it goes on with a
value, or the process ended through `std::exit` with a code. -/
inductive Step (σ α : Type)
  | running (a : α) (s : σ)
  | exited (code : Nat) (s : σ)

/-- A piece of program over a process state `σ`. -/
def Prog (σ α : Type) : Type := σ → Step σ α

/-- Sequencing: nothing runs after an exit. -/
def Prog.bind {σ α β : Type} (m : Prog σ α) (f : α → Prog σ β) : Prog σ β :=
  fun s =>
    match m s with
    | Step.running a t => f a t
    | Step.exited code t => Step.exited code t

instance (σ : Type) : Monad (Prog σ) where
  pure := fun a s => Step.running a s
  bind := Prog.bind

/-- The call `std::exit(code)`. -/
def std_exit {σ α : Type} (code : Nat) : Prog σ α := fun s => Step.exited code s

/-- The counting loop `for (int i = start; ...; ++i) body(i)`, `fuel` being the
number of iterations left. -/
def for_loop {σ : Type} (body : Nat → Prog σ Unit) : Nat → Nat → Prog σ Unit
  | 0, _ => pure ()
  | fuel + 1, i => do
    body i
    for_loop body fuel (i + 1)

/-- The range-based loop `for (v : xs) body(v)` over an initializer list. -/
def for_each {σ α : Type} (body : α → Prog σ Unit) : List α → Prog σ Unit
  | [] => pure ()
  | v :: vs => do
    body v
    for_each body vs

/-! ## The trial: attempt_encode -/

/-- A call into CUDA or nvJPEG made by attempt_encode, with the arguments that
the program computes. -/
inductive Call
  | nvjpegCreateExV2
  | cudaMalloc (i : Nat) (size : Nat)
  | nvjpegEncoderStateCreate
  | nvjpegEncoderParamsCreate
  | nvjpegEncoderParamsSetSamplingFactors (css : nvjpegChromaSubsampling_t)
  | nvjpegEncoderParamsSetOptimizedHuffman (optimized : Int)
  | nvjpegEncoderParamsSetEncoding
  | nvjpegEncoderParamsSetQuality (quality : Int)
  | nvjpegEncodeYUV (pitch : List (Option Int)) (css : nvjpegChromaSubsampling_t)
      (size_x size_y : Int)
  | nvjpegEncodeImage (pitch : List (Option Int)) (fmt : nvjpegOutputFormat_t)
      (size_x size_y : Int)
  | nvjpegEncodeRetrieveBitstream (with_buffer : Bool)
  | cudaDeviceSynchronize
  | cudaFree (i : Nat)
  | nvjpegEncoderParamsDestroy
  | nvjpegEncoderStateDestroy
  | nvjpegDestroy
  deriving DecidableEq, Repr

/-- The external world of a trial: `status k c` is the status that the k-th
call of the process (counted from 0) returns when that call is `c`, and
`cudaGetErrorString` is the text CUDA gives for a status. -/
structure Oracle where
  status : Nat → Call → Nat
  cudaGetErrorString : Nat → String

/-- Modelled from the spec: cudaSuccess is declared in cuda_runtime_api.h, which
is not part of the repository; every nonzero status is an error, success
is 0. -/
def cudaSuccess : Nat := 0

/-- Modelled from the spec: NVJPEG_STATUS_SUCCESS is declared in nvjpeg.h,
which is not part of the repository; every nonzero status is an error,
success is 0. -/
def NVJPEG_STATUS_SUCCESS : Nat := 0

/-- State of a trial process: the chunks written to standard output (one per
output statement), the calls made so far, and the field `img.pitch`, whose four
entries start uninitialised. -/
structure Proc where
  out : List String
  trace : List Call
  pitch : List (Option Int)

/-- State of a process that has just started. -/
def Proc.init : Proc := ⟨[], [], [none, none, none, none]⟩

/-- One output statement `std::cout << ...;`. -/
def print (text : String) : Prog Proc Unit :=
  fun s => Step.running () ⟨s.out ++ [text], s.trace, s.pitch⟩

/-- The expansion of `__FILE__`, the path of the source file as given to the
compiler. -/
def FILE : String := "main.cpp"

/-- The macro CUDA_CALL (lines 9-18) around the call `c` written as `text` on
line `line`: a status other than cudaSuccess prints a message and exits. -/
def CUDA_CALL (o : Oracle) (line : Nat) (text : String) (c : Call) : Prog Proc Unit :=
  fun s =>
    let res_ := o.status s.trace.length c
    let t : Proc := ⟨s.out, s.trace ++ [c], s.pitch⟩
    if cudaSuccess ≠ res_ then
      Step.exited EXIT_FAILURE
        ⟨t.out ++ ["CUDA error at " ++ FILE ++ ":" ++ toString line ++ "code="
          ++ toString res_ ++ "(" ++ o.cudaGetErrorString res_ ++ ") \"" ++ text
          ++ "\"\n"], t.trace, t.pitch⟩
    else Step.running () t

/-- The macro NVJPEG_CALL (lines 20-28) around the call `c` on line `line`: a
status other than NVJPEG_STATUS_SUCCESS prints a message and exits. -/
def NVJPEG_CALL (o : Oracle) (line : Nat) (c : Call) : Prog Proc Unit :=
  fun s =>
    let res_ := o.status s.trace.length c
    let t : Proc := ⟨s.out, s.trace ++ [c], s.pitch⟩
    if NVJPEG_STATUS_SUCCESS ≠ res_ then
      Step.exited EXIT_FAILURE
        ⟨t.out ++ ["nvJPEG error at " ++ FILE ++ ":" ++ toString line ++ " code="
          ++ toString res_ ++ "\n"], t.trace, t.pitch⟩
    else Step.running () t

/-- The assignment `img.pitch[i] = aw` of line 175. -/
def set_pitch (i : Nat) (aw : Int) : Prog Proc Unit :=
  fun s => Step.running () ⟨s.out, s.trace, s.pitch.set i (some aw)⟩

/-- Reads the field `img.pitch`, passed to the encoder through `&img`. -/
def get_pitch : Prog Proc (List (Option Int)) :=
  fun s => Step.running s.pitch s

/-- `std::boolalpha` output of a bool. -/
def boolalpha (b : Bool) : String := if b then "true" else "false"

/-- Lines 84-91 of attempt_encode: the start of the trial line. -/
def print_header (size_x size_y : Int) (opt_huffman : Bool)
    (css : nvjpegChromaSubsampling_t) (fmt : nvjpegOutputFormat_t) : Prog Proc Unit := do
  print ("size:" ++ toString size_x ++ "x" ++ toString size_y ++ ",opt_huffman:"
    ++ boolalpha opt_huffman)
  if fmt = NVJPEG_OUTPUT_YUV then
    print (",fmt:" ++ fmt_to_cstr fmt ++ ",css:" ++ css_to_cstr css ++ ": ")
  else
    print (",fmt:" ++ fmt_to_cstr fmt ++ ": ")

/-- Lines 103-129 of attempt_encode: the format switch, whose `default:`
branch prints and exits. -/
def switch_format (fmt : nvjpegOutputFormat_t) : Prog Proc (Nat × Int) :=
  match resolve_format fmt with
  | some r => pure r
  | none => do
    print "unsupported format\n"
    std_exit EXIT_FAILURE

/-- Lines 130-162 of attempt_encode: the subsampling switch, whose `default:`
branch prints and exits. -/
def switch_css (fmt : nvjpegOutputFormat_t) (css : nvjpegChromaSubsampling_t) :
    Prog Proc (Int × Int) :=
  match resolve_mult fmt css with
  | some r => pure r
  | none => do
    print "unsupported subsampling\n"
    std_exit EXIT_FAILURE

/-- Body of the allocation loop (lines 166-175) for channel `i`. -/
def alloc_plane (o : Oracle) (size_x size_y mult_x mult_y : Int) (i : Nat) :
    Prog Proc Unit := do
  let aw := plane_aw size_x mult_x i
  let ah := plane_ah size_y mult_y i
  CUDA_CALL o 174 "cudaMalloc(reinterpret_cast<void **>(&img.channel[i]), aw * ah)"
    (Call.cudaMalloc i (to_size_t (mul32 aw ah)))
  set_pitch i aw

/-- Lines 195-203 of attempt_encode: the encode entry point for the format. -/
def encode (o : Oracle) (size_x size_y : Int) (css : nvjpegChromaSubsampling_t)
    (fmt : nvjpegOutputFormat_t) : Prog Proc Unit := do
  let img ← get_pitch
  if fmt = NVJPEG_OUTPUT_YUV then
    NVJPEG_CALL o 196 (Call.nvjpegEncodeYUV img css size_x size_y)
  else
    NVJPEG_CALL o 199 (Call.nvjpegEncodeImage img fmt size_x size_y)

/-- The routine attempt_encode (lines 82-223). The host vector `buffer_out` is
resized between the two retrieve calls; that step makes no codec or device call
and is taken to succeed. -/
def attempt_encode (o : Oracle) (size_x size_y : Int) (opt_huffman : Bool)
    (css : nvjpegChromaSubsampling_t) (fmt : nvjpegOutputFormat_t) : Prog Proc Unit := do
  print_header size_x size_y opt_huffman css fmt
  NVJPEG_CALL o 100 Call.nvjpegCreateExV2
  let (num_channels, _channel_mult) ← switch_format fmt
  let (mult_x, mult_y) ← switch_css fmt css
  for_loop (alloc_plane o size_x size_y mult_x mult_y) num_channels 0
  NVJPEG_CALL o 179 Call.nvjpegEncoderStateCreate
  NVJPEG_CALL o 181 Call.nvjpegEncoderParamsCreate
  NVJPEG_CALL o 184 (Call.nvjpegEncoderParamsSetSamplingFactors css)
  NVJPEG_CALL o 188 (Call.nvjpegEncoderParamsSetOptimizedHuffman (if opt_huffman then 1 else 0))
  NVJPEG_CALL o 191 Call.nvjpegEncoderParamsSetEncoding
  NVJPEG_CALL o 193 (Call.nvjpegEncoderParamsSetQuality 90)
  encode o size_x size_y css fmt
  NVJPEG_CALL o 207 (Call.nvjpegEncodeRetrieveBitstream false)
  NVJPEG_CALL o 210 (Call.nvjpegEncodeRetrieveBitstream true)
  CUDA_CALL o 212 "cudaDeviceSynchronize()" Call.cudaDeviceSynchronize
  for_loop (fun i => CUDA_CALL o 215 "cudaFree(img.channel[i])" (Call.cudaFree i))
    num_channels 0
  NVJPEG_CALL o 218 Call.nvjpegEncoderParamsDestroy
  NVJPEG_CALL o 219 Call.nvjpegEncoderStateDestroy
  NVJPEG_CALL o 221 Call.nvjpegDestroy
  print "success\n"

/-- End of a trial process: its exit code and last state. -/
structure Trial where
  code : Nat
  proc : Proc

/-- The child branch of fork_attempt (lines 234-237): attempt_encode, then
`std::exit(EXIT_SUCCESS)`, in a process that has just been forked. -/
def fork_attempt_child (o : Oracle) (size_x size_y : Int) (opt_huffman : Bool)
    (css : nvjpegChromaSubsampling_t) (fmt : nvjpegOutputFormat_t) : Trial :=
  match attempt_encode o size_x size_y opt_huffman css fmt Proc.init with
  | Step.running _ s => ⟨EXIT_SUCCESS, s⟩
  | Step.exited code s => ⟨code, s⟩

/-! ## Observations on a trial -/

/-- Every call of the trace returned its success status to the process: the
k-th call made, `c`, was answered `o.status k c = 0`, the value of both
cudaSuccess and NVJPEG_STATUS_SUCCESS. -/
def all_ok (o : Oracle) (tr : List Call) : Prop :=
  ∀ k c, tr[k]? = some c → o.status k c = 0

/-- The process executed the output statement of line 222. -/
def printed_success (p : Proc) : Prop := "success\n" ∈ p.out

/-- A trial that is still going well: its calls so far are `tr`, all of them
succeeded, "success" is not printed yet and the field img.pitch holds `pt`. -/
def ok_at (o : Oracle) (tr : List Call) (pt : List (Option Int)) (p : Proc) : Prop :=
  all_ok o p.trace ∧ ¬ printed_success p ∧ p.trace = tr ∧ p.pitch = pt

/-- A trial that stopped at a failing call: the last call of the trace is the
only one that did not succeed, and "success" is not printed. -/
def failed_at_last (o : Oracle) (p : Proc) : Prop :=
  (∃ pre c, p.trace = pre ++ [c] ∧ all_ok o pre ∧ o.status pre.length c ≠ 0) ∧
    ¬ printed_success p

/-- Hoare triple for a piece of a trial: from a state satisfying `P` it goes on
in a state satisfying `Q`, or exits with EXIT_FAILURE at a failing call. -/
def triple {α : Type} (o : Oracle) (P : Proc → Prop) (m : Prog Proc α)
    (Q : α → Proc → Prop) : Prop :=
  ∀ p, P p →
    match m p with
    | Step.running a q => Q a q
    | Step.exited code q => code = EXIT_FAILURE ∧ failed_at_last o q

/-- The chunks that lines 84-91 of attempt_encode write in a process that has
just started. -/
def header_chunks (size_x size_y : Int) (opt_huffman : Bool)
    (css : nvjpegChromaSubsampling_t) (fmt : nvjpegOutputFormat_t) : List String :=
  match print_header size_x size_y opt_huffman css fmt Proc.init with
  | Step.running _ q => q.out
  | Step.exited _ q => q.out

/-- The last state of a step, running or exited. -/
def Step.state {σ α : Type} : Step σ α → σ
  | Step.running _ s => s
  | Step.exited _ s => s

/-- A piece of a trial only appends to standard output. -/
def out_grows {α : Type} (m : Prog Proc α) : Prop :=
  ∀ p, ∃ rest, (m p).state.out = p.out ++ rest

/-- The oracle under which every call succeeds. -/
def all_success : Oracle := ⟨fun _ _ => 0, fun _ => "no error"⟩

/-- The cudaMalloc calls of the allocation loop for channels below `n`. -/
def alloc_calls (size_x size_y mult_x mult_y : Int) (n : Nat) : List Call :=
  (List.range n).map
    (fun i => Call.cudaMalloc i (to_size_t (plane_bytes size_x size_y mult_x mult_y i)))

/-- The field img.pitch after the allocation loop has run for the channels
below `n`. -/
def alloc_pitch (size_x mult_x : Int) : Nat → List (Option Int)
  | 0 => [none, none, none, none]
  | n + 1 => (alloc_pitch size_x mult_x n).set n (some (plane_aw size_x mult_x n))

/-- The call of the encode step for a format, given the field img.pitch. -/
def encode_call (pt : List (Option Int)) (size_x size_y : Int)
    (css : nvjpegChromaSubsampling_t) (fmt : nvjpegOutputFormat_t) : Call :=
  if fmt = NVJPEG_OUTPUT_YUV then Call.nvjpegEncodeYUV pt css size_x size_y
  else Call.nvjpegEncodeImage pt fmt size_x size_y

/-- The calls, in order, of a trial in which no call fails, for a format of
`n` channels and subsampling multipliers `mult_x`, `mult_y`. -/
def full_trace (size_x size_y : Int) (opt_huffman : Bool) (css : nvjpegChromaSubsampling_t)
    (fmt : nvjpegOutputFormat_t) (n : Nat) (mult_x mult_y : Int) : List Call :=
  [Call.nvjpegCreateExV2] ++ alloc_calls size_x size_y mult_x mult_y n ++
  [Call.nvjpegEncoderStateCreate, Call.nvjpegEncoderParamsCreate,
    Call.nvjpegEncoderParamsSetSamplingFactors css,
    Call.nvjpegEncoderParamsSetOptimizedHuffman (if opt_huffman then 1 else 0),
    Call.nvjpegEncoderParamsSetEncoding, Call.nvjpegEncoderParamsSetQuality 90,
    encode_call (alloc_pitch size_x mult_x n) size_x size_y css fmt,
    Call.nvjpegEncodeRetrieveBitstream false, Call.nvjpegEncodeRetrieveBitstream true,
    Call.cudaDeviceSynchronize] ++
  (List.range n).map Call.cudaFree ++
  [Call.nvjpegEncoderParamsDestroy, Call.nvjpegEncoderStateDestroy, Call.nvjpegDestroy]

/-- Whether a call releases a resource of the trial. -/
def Call.is_release : Call → Bool
  | Call.cudaFree _ => true
  | Call.nvjpegEncoderParamsDestroy => true
  | Call.nvjpegEncoderStateDestroy => true
  | Call.nvjpegDestroy => true
  | _ => false

/-- Whether a call acquires a resource of the trial: the codec session, a
device buffer, the encoder state, the encoder params. -/
def Call.is_acquire : Call → Bool
  | Call.nvjpegCreateExV2 => true
  | Call.cudaMalloc _ _ => true
  | Call.nvjpegEncoderStateCreate => true
  | Call.nvjpegEncoderParamsCreate => true
  | _ => false

/-- The release call of the resource that an acquiring call creates: the codec
session, a device buffer, the encoder state, the encoder params. -/
def Call.release_of : Call → Option Call
  | Call.nvjpegCreateExV2 => some Call.nvjpegDestroy
  | Call.cudaMalloc i _ => some (Call.cudaFree i)
  | Call.nvjpegEncoderStateCreate => some Call.nvjpegEncoderStateDestroy
  | Call.nvjpegEncoderParamsCreate => some Call.nvjpegEncoderParamsDestroy
  | _ => none

/-! ## The sweep: fork_attempt and main -/

/-- The arguments of one call of fork_attempt. -/
structure Config where
  size_x : Int
  size_y : Int
  opt_huffman : Bool
  css : nvjpegChromaSubsampling_t
  fmt : nvjpegOutputFormat_t
  deriving DecidableEq, Repr

/-- State of the parent process: the argument tuples of the calls of
fork_attempt made so far, in order. -/
structure Parent where
  calls : List Config

/-- The parent side of fork_attempt (lines 225-240). `fork_fails k` tells
whether the `fork()` of the k-th call returns -1, upon which the parent reports
on standard error and exits with EXIT_FAILURE; otherwise the child runs `fork_attempt_child` and the parent
waits for it and returns. -/
def fork_attempt (fork_fails : Nat → Bool) (size_x size_y : Int) (opt_huffman : Bool)
    (css : nvjpegChromaSubsampling_t) (fmt : nvjpegOutputFormat_t) : Prog Parent Unit :=
  fun s =>
    let t : Parent := ⟨s.calls ++ [⟨size_x, size_y, opt_huffman, css, fmt⟩]⟩
    if fork_fails s.calls.length then Step.exited EXIT_FAILURE t
    else Step.running () t

/-- The function main (lines 242-262): `x` and `y` run from size_min to
size_max, that is size_max + 1 - size_min iterations each. -/
def main (fork_fails : Nat → Bool) : Prog Parent Unit :=
  let size_min : Nat := 1
  let size_max : Nat := 32
  for_loop (fun x =>
    for_loop (fun y =>
      for_each (fun opt_huffman => do
        for_each (fun css => fork_attempt fork_fails x y opt_huffman css NVJPEG_OUTPUT_YUV)
          [NVJPEG_CSS_444, NVJPEG_CSS_422, NVJPEG_CSS_420, NVJPEG_CSS_440, NVJPEG_CSS_411,
            NVJPEG_CSS_410]
        for_each (fun fmt => fork_attempt fork_fails x y opt_huffman NVJPEG_CSS_444 fmt)
          [NVJPEG_OUTPUT_RGB, NVJPEG_OUTPUT_BGR, NVJPEG_OUTPUT_RGBI, NVJPEG_OUTPUT_BGRI])
        [false, true])
      (size_max + 1 - size_min) size_min)
    (size_max + 1 - size_min) size_min

/-- The ten configurations of one (width, height, opt_huffman) in the order
of the specification: YUV with the six subsampling values, then RGB, BGR,
RGBI, BGRI with 4:4:4. -/
def sweep_block (w h : Int) (opt_huffman : Bool) : List Config :=
  [NVJPEG_CSS_444, NVJPEG_CSS_422, NVJPEG_CSS_420, NVJPEG_CSS_440, NVJPEG_CSS_411,
    NVJPEG_CSS_410].map (fun css => ⟨w, h, opt_huffman, css, NVJPEG_OUTPUT_YUV⟩) ++
  [NVJPEG_OUTPUT_RGB, NVJPEG_OUTPUT_BGR, NVJPEG_OUTPUT_RGBI, NVJPEG_OUTPUT_BGRI].map
    (fun fmt => ⟨w, h, opt_huffman, NVJPEG_CSS_444, fmt⟩)

/-- The enumeration of the specification, written from its words: width 1..32
outermost, height 1..32, opt_huffman false then true, then the ten
configurations of `sweep_block`. -/
def sweep_spec : List Config :=
  (List.range 32).flatMap (fun i =>
    (List.range 32).flatMap (fun j =>
      [false, true].flatMap (fun opt_huffman =>
        sweep_block ((i : Int) + 1) ((j : Int) + 1) opt_huffman)))

/-- A piece of the parent that returns after appending the calls `l`. -/
def runs_appending (m : Prog Parent Unit) (l : List Config) : Prop :=
  ∀ s, m s = Step.running () ⟨s.calls ++ l⟩

/-! ## Plane geometry: arithmetic facts -/

theorem wrap32_id {z : Int} (h1 : -2147483648 ≤ z) (h2 : z < 2147483648) : wrap32 z = z := by
  unfold wrap32
  omega

theorem resolve_css_cases {css : nvjpegChromaSubsampling_t} {mx my : Int}
    (h : resolve_css css = some (mx, my)) :
    (mx = 1 ∨ mx = 2 ∨ mx = 4) ∧ (my = 1 ∨ my = 2) := by
  cases css <;> simp [resolve_css] at h <;> obtain ⟨rfl, rfl⟩ := h <;> simp

theorem resolve_mult_cases {fmt : nvjpegOutputFormat_t} {css : nvjpegChromaSubsampling_t}
    {mx my : Int} (h : resolve_mult fmt css = some (mx, my)) :
    (mx = 1 ∨ mx = 2 ∨ mx = 4) ∧ (my = 1 ∨ my = 2) := by
  unfold resolve_mult at h
  split at h
  · exact resolve_css_cases h
  · simp at h
    obtain ⟨rfl, rfl⟩ := h
    simp

/-- Rounding up to a multiple of `m` in `int` arithmetic, free of overflow. -/
theorem round_up32 {v m : Int} (hm : m = 1 ∨ m = 2 ∨ m = 4) (h0 : 0 ≤ v)
    (hb : v + m < 2147483648) :
    mul32 (div32 (sub32 (add32 v m) 1) m) m = (v + m - 1) / m * m := by
  have e1 : add32 v m = v + m := by
    unfold add32
    rcases hm with rfl | rfl | rfl <;> exact wrap32_id (by omega) (by omega)
  have e2 : sub32 (v + m) 1 = v + m - 1 := by
    unfold sub32
    rcases hm with rfl | rfl | rfl <;> exact wrap32_id (by omega) (by omega)
  have e3 : div32 (v + m - 1) m = (v + m - 1) / m := by
    unfold div32
    have hq : (v + m - 1).tdiv m = (v + m - 1) / m :=
      Int.tdiv_eq_ediv (by omega) (by omega)
    rw [hq]
    rcases hm with rfl | rfl | rfl <;> exact wrap32_id (by omega) (by omega)
  rw [e1, e2, e3]
  unfold mul32
  rcases hm with rfl | rfl | rfl <;> exact wrap32_id (by omega) (by omega)

/-- The pitch of channel 0, free of overflow: the width rounded up to a
multiple of 4. -/
theorem plane_aw_zero {w m : Int} (h0 : 0 ≤ w) (hb : w + 3 < 2147483648) :
    plane_aw w m 0 = (w + 3) / 4 * 4 := by
  have e1 : add32 w 3 = w + 3 := wrap32_id (by omega) (by omega)
  have e2 : div32 (w + 3) 4 = (w + 3) / 4 := by
    unfold div32
    rw [Int.tdiv_eq_ediv (by omega) (by omega)]
    exact wrap32_id (by omega) (by omega)
  simp only [plane_aw, if_true, e1, e2]
  exact wrap32_id (by omega) (by omega)

/-- The pitch of a channel after the first, free of overflow: the width
rounded up to a multiple of `m`, then to a multiple of 4. -/
theorem plane_aw_succ {w m : Int} {i : Nat} (hi : i ≠ 0) (hm : m = 1 ∨ m = 2 ∨ m = 4)
    (h0 : 0 ≤ w) (hb : w + 6 < 2147483648) :
    plane_aw w m i = ((w + m - 1) / m * m + 3) / 4 * 4 := by
  have e0 := round_up32 hm h0 (by omega)
  have hr : 0 ≤ (w + m - 1) / m * m ∧ (w + m - 1) / m * m ≤ w + 3 := by
    rcases hm with rfl | rfl | rfl <;> omega
  have e1 : add32 ((w + m - 1) / m * m) 3 = (w + m - 1) / m * m + 3 :=
    wrap32_id (by omega) (by omega)
  have e2 : div32 ((w + m - 1) / m * m + 3) 4 = ((w + m - 1) / m * m + 3) / 4 := by
    unfold div32
    rw [Int.tdiv_eq_ediv (by omega) (by omega)]
    exact wrap32_id (by omega) (by omega)
  simp only [plane_aw, if_neg hi, e0, e1, e2]
  exact wrap32_id (by omega) (by omega)

theorem plane_ah_zero (h m : Int) : plane_ah h m 0 = h := by
  simp [plane_ah]

theorem plane_ah_succ {h m : Int} {i : Nat} (hi : i ≠ 0) (hm : m = 1 ∨ m = 2)
    (h0 : 0 ≤ h) (hb : h + 2 < 2147483648) :
    plane_ah h m i = (h + m - 1) / m * m := by
  simp only [plane_ah, if_neg hi]
  exact round_up32 (by omega) h0 (by rcases hm with rfl | rfl <;> omega)

/-- Bounds of the plane geometry of any channel, free of overflow. -/
theorem plane_bounds {w h mx my : Int} (i : Nat) (hmx : mx = 1 ∨ mx = 2 ∨ mx = 4)
    (hmy : my = 1 ∨ my = 2) (hw : 1 ≤ w) (hh : 1 ≤ h) (hwb : w + 6 < 2147483648)
    (hhb : h + 2 < 2147483648) :
    (w ≤ plane_aw w mx i ∧ plane_aw w mx i ≤ w + 3 ∧ plane_aw w mx i % 4 = 0) ∧
    (h ≤ plane_ah h my i ∧ plane_ah h my i ≤ h + 1) := by
  by_cases hi : i = 0
  · subst hi
    rw [plane_aw_zero (by omega) (by omega), plane_ah_zero]
    omega
  · rw [plane_aw_succ hi hmx (by omega) hwb, plane_ah_succ hi hmy (by omega) hhb]
    rcases hmx with rfl | rfl | rfl <;> rcases hmy with rfl | rfl <;> omega

theorem to_size_t_id {v : Int} (h0 : 0 ≤ v) (h1 : v < 2147483648) :
    (to_size_t v : Int) = v := by
  unfold to_size_t
  omega

/-- The byte size of a plane, free of overflow: positive, a multiple of 4,
at least width × height, and passed unchanged as a `size_t`. -/
theorem plane_bytes_bounds {w h mx my : Int} (i : Nat) (hmx : mx = 1 ∨ mx = 2 ∨ mx = 4)
    (hmy : my = 1 ∨ my = 2) (hw : 1 ≤ w) (hh : 1 ≤ h)
    (hb : (w + 3) * (h + 1) < 2147483648) :
    plane_bytes w h mx my i = plane_aw w mx i * plane_ah h my i ∧
    w * h ≤ plane_bytes w h mx my i ∧ plane_bytes w h mx my i < 2147483648 ∧
    plane_bytes w h mx my i % 4 = 0 := by
  have h2 : (w + 3) * 2 ≤ (w + 3) * (h + 1) :=
    Int.mul_le_mul_of_nonneg_left (by omega) (by omega)
  have h3 : 4 * (h + 1) ≤ (w + 3) * (h + 1) :=
    Int.mul_le_mul_of_nonneg_right (by omega) (by omega)
  obtain ⟨⟨ha1, ha2, ha3⟩, hh1, hh2⟩ :=
    plane_bounds i hmx hmy hw hh (w := w) (h := h) (by omega) (by omega)
  have hlo : w * h ≤ plane_aw w mx i * plane_ah h my i :=
    Int.mul_le_mul ha1 hh1 (by omega) (by omega)
  have hhi : plane_aw w mx i * plane_ah h my i ≤ (w + 3) * (h + 1) :=
    Int.mul_le_mul ha2 hh2 (by omega) (by omega)
  have hpos : 0 < w * h := Int.mul_pos (by omega) (by omega)
  have hmod : plane_aw w mx i * plane_ah h my i % 4 = 0 := by
    rw [Int.mul_emod, ha3]
    simp
  have e : plane_bytes w h mx my i = plane_aw w mx i * plane_ah h my i := by
    unfold plane_bytes mul32
    exact wrap32_id (by omega) (by omega)
  rw [e]
  exact ⟨rfl, hlo, by omega, hmod⟩

/-! ## Hoare rules for the trial -/

theorem pure_bind_prog {σ α β : Type} (a : α) (f : α → Prog σ β) :
    (pure a >>= f) = f a := rfl

theorem triple_bind {α β : Type} {o : Oracle} {P : Proc → Prop} {R : α → Proc → Prop}
    {Q : β → Proc → Prop} {m : Prog Proc α} {f : α → Prog Proc β}
    (hm : triple o P m R) (hf : ∀ a, triple o (R a) (f a) Q) :
    triple o P (m >>= f) Q := by
  intro p hp
  have h1 := hm p hp
  show match Prog.bind m f p with
    | Step.running a q => Q a q
    | Step.exited code q => code = EXIT_FAILURE ∧ failed_at_last o q
  unfold Prog.bind
  cases hmp : m p with
  | running a t =>
    rw [hmp] at h1
    exact hf a t h1
  | exited code t =>
    rw [hmp] at h1
    exact h1

theorem all_ok_nil (o : Oracle) : all_ok o [] := by
  intro k c h
  simp at h

theorem all_ok_snoc {o : Oracle} {tr : List Call} {c : Call} (h : all_ok o tr)
    (hc : o.status tr.length c = 0) : all_ok o (tr ++ [c]) := by
  intro k d hk
  rcases Nat.lt_trichotomy k tr.length with hlt | heq | hgt
  · rw [List.getElem?_append_left hlt] at hk
    exact h k d hk
  · subst heq
    simp at hk
    subst hk
    exact hc
  · rw [List.getElem?_eq_none (by simp; omega)] at hk
    cases hk

theorem triple_call_aux {o : Oracle} {tr : List Call} {pt : List (Option Int)} (c : Call)
    (msg : Nat → String) (hmsg : ∀ r, msg r ≠ "success\n") (p : Proc)
    (hp : ok_at o tr pt p) :
    (o.status p.trace.length c = 0 →
      ok_at o (tr ++ [c]) pt ⟨p.out, p.trace ++ [c], p.pitch⟩) ∧
    (o.status p.trace.length c ≠ 0 →
      failed_at_last o
        ⟨p.out ++ [msg (o.status p.trace.length c)], p.trace ++ [c], p.pitch⟩) := by
  obtain ⟨h1, h2, h3, h4⟩ := hp
  constructor
  · intro hc
    exact ⟨all_ok_snoc h1 hc, h2, by simp [h3], h4⟩
  · intro hc
    refine ⟨⟨p.trace, c, rfl, h1, hc⟩, ?_⟩
    intro hs
    unfold printed_success at hs h2
    simp only [List.mem_append, List.mem_singleton] at hs
    rcases hs with hs | hs
    · exact h2 hs
    · exact hmsg _ hs.symm

theorem ne_success_of_data (a b : String) (x y : Char) (r : List Char)
    (ha : a.data = x :: y :: r) (hy : y ≠ Char.ofNat 117) : a ++ b ≠ "success\n" := by
  intro h
  have h2 := congrArg String.data h
  rw [String.data_append, ha] at h2
  have h3 : ("success\n" : String).data =
      [Char.ofNat 115, Char.ofNat 117, Char.ofNat 99, Char.ofNat 99, Char.ofNat 101,
        Char.ofNat 115, Char.ofNat 115, Char.ofNat 10] := by decide
  rw [h3] at h2
  simp only [List.cons_append, List.cons.injEq] at h2
  exact hy h2.2.1

theorem triple_NVJPEG_CALL (o : Oracle) (tr : List Call) (pt : List (Option Int))
    (line : Nat) (c : Call) :
    triple o (ok_at o tr pt) (NVJPEG_CALL o line c) (fun _ => ok_at o (tr ++ [c]) pt) := by
  intro p hp
  have h := triple_call_aux c
    (fun r => "nvJPEG error at " ++ FILE ++ ":" ++ toString line ++ " code=" ++ toString r
      ++ "\n")
    (by
      intro r
      simp only [String.append_assoc]
      exact ne_success_of_data _ _ _ _ _ rfl (by decide)) p hp
  unfold NVJPEG_CALL NVJPEG_STATUS_SUCCESS
  by_cases hc : o.status p.trace.length c = 0
  · simp only [hc, ne_eq, not_true_eq_false, if_false]
    exact h.1 hc
  · have hc2 : (0 : Nat) ≠ o.status p.trace.length c := fun e => hc e.symm
    simp only [hc2, ne_eq, not_false_eq_true, if_true]
    exact ⟨trivial, h.2 hc⟩

theorem triple_CUDA_CALL (o : Oracle) (tr : List Call) (pt : List (Option Int))
    (line : Nat) (text : String) (c : Call) :
    triple o (ok_at o tr pt) (CUDA_CALL o line text c) (fun _ => ok_at o (tr ++ [c]) pt) := by
  intro p hp
  have h := triple_call_aux c
    (fun r => "CUDA error at " ++ FILE ++ ":" ++ toString line ++ "code=" ++ toString r
      ++ "(" ++ o.cudaGetErrorString r ++ ") \"" ++ text ++ "\"\n")
    (by
      intro r
      simp only [String.append_assoc]
      exact ne_success_of_data _ _ _ _ _ rfl (by decide)) p hp
  unfold CUDA_CALL cudaSuccess
  by_cases hc : o.status p.trace.length c = 0
  · simp only [hc, ne_eq, not_true_eq_false, if_false]
    exact h.1 hc
  · have hc2 : (0 : Nat) ≠ o.status p.trace.length c := fun e => hc e.symm
    simp only [hc2, ne_eq, not_false_eq_true, if_true]
    exact ⟨trivial, h.2 hc⟩

theorem triple_print (o : Oracle) (tr : List Call) (pt : List (Option Int)) (text : String)
    (h : text ≠ "success\n") :
    triple o (ok_at o tr pt) (print text) (fun _ => ok_at o tr pt) := by
  intro p hp
  obtain ⟨h1, h2, h3⟩ := hp
  refine ⟨h1, ?_, h3⟩
  intro hs
  unfold printed_success at hs h2
  simp only [List.mem_append, List.mem_singleton] at hs
  rcases hs with hs | hs
  · exact h2 hs
  · exact h hs.symm

theorem triple_set_pitch (o : Oracle) (tr : List Call) (pt : List (Option Int)) (i : Nat)
    (aw : Int) :
    triple o (ok_at o tr pt) (set_pitch i aw) (fun _ => ok_at o tr (pt.set i (some aw))) := by
  intro p hp
  obtain ⟨h1, h2, h3, h4⟩ := hp
  exact ⟨h1, h2, h3, by rw [← h4]⟩

theorem triple_get_pitch (o : Oracle) (tr : List Call) (pt : List (Option Int)) :
    triple o (ok_at o tr pt) get_pitch (fun img p => ok_at o tr pt p ∧ img = pt) := by
  intro p hp
  exact ⟨hp, hp.2.2.2⟩

theorem triple_pure {α : Type} (o : Oracle) (P : Proc → Prop) (a : α) :
    triple o P (pure a) (fun _ => P) := by
  intro p hp
  exact hp

/-- Loop rule: an invariant indexed by the loop counter. -/
theorem triple_for_loop (o : Oracle) (body : Nat → Prog Proc Unit) (I : Nat → Proc → Prop)
    (hbody : ∀ i, triple o (I i) (body i) (fun _ => I (i + 1)))
    (fuel : Nat) : ∀ i, triple o (I i) (for_loop body fuel i) (fun _ => I (i + fuel)) := by
  induction fuel with
  | zero =>
    intro i
    exact triple_pure o _ ()
  | succ k ih =>
    intro i
    have e : i + (k + 1) = i + 1 + k := by omega
    rw [e]
    exact triple_bind (hbody i) (fun _ => ih (i + 1))

theorem triple_print_header (o : Oracle) (tr : List Call) (pt : List (Option Int))
    (size_x size_y : Int) (opt_huffman : Bool) (css : nvjpegChromaSubsampling_t)
    (fmt : nvjpegOutputFormat_t) :
    triple o (ok_at o tr pt) (print_header size_x size_y opt_huffman css fmt)
      (fun _ => ok_at o tr pt) := by
  unfold print_header
  refine triple_bind (triple_print o tr pt _ ?_) (fun _ => ?_)
  · simp only [String.append_assoc]
    exact ne_success_of_data _ _ _ _ _ rfl (by decide)
  · split
    · refine triple_print o tr pt _ ?_
      simp only [String.append_assoc]
      exact ne_success_of_data _ _ _ _ _ rfl (by decide)
    · refine triple_print o tr pt _ ?_
      simp only [String.append_assoc]
      exact ne_success_of_data _ _ _ _ _ rfl (by decide)

theorem triple_alloc_plane (o : Oracle) (tr : List Call) (size_x size_y mult_x mult_y : Int)
    (i : Nat) :
    triple o
      (ok_at o (tr ++ alloc_calls size_x size_y mult_x mult_y i) (alloc_pitch size_x mult_x i))
      (alloc_plane o size_x size_y mult_x mult_y i)
      (fun _ => ok_at o (tr ++ alloc_calls size_x size_y mult_x mult_y (i + 1))
        (alloc_pitch size_x mult_x (i + 1))) := by
  unfold alloc_plane
  have e : tr ++ alloc_calls size_x size_y mult_x mult_y (i + 1) =
      tr ++ alloc_calls size_x size_y mult_x mult_y i ++
        [Call.cudaMalloc i (to_size_t (plane_bytes size_x size_y mult_x mult_y i))] := by
    simp [alloc_calls, List.range_succ]
  rw [e]
  exact triple_bind (triple_CUDA_CALL o _ _ _ _ _) (fun _ => triple_set_pitch o _ _ _ _)

theorem triple_free_plane (o : Oracle) (tr : List Call) (pt : List (Option Int)) (i : Nat) :
    triple o (ok_at o (tr ++ (List.range i).map Call.cudaFree) pt)
      (CUDA_CALL o 215 "cudaFree(img.channel[i])" (Call.cudaFree i))
      (fun _ => ok_at o (tr ++ (List.range (i + 1)).map Call.cudaFree) pt) := by
  have e : tr ++ (List.range (i + 1)).map Call.cudaFree =
      tr ++ (List.range i).map Call.cudaFree ++ [Call.cudaFree i] := by
    simp [List.range_succ]
  rw [e]
  exact triple_CUDA_CALL o _ _ _ _ _

theorem triple_encode (o : Oracle) (tr : List Call) (pt : List (Option Int))
    (size_x size_y : Int) (css : nvjpegChromaSubsampling_t) (fmt : nvjpegOutputFormat_t) :
    triple o (ok_at o tr pt) (encode o size_x size_y css fmt)
      (fun _ => ok_at o (tr ++ [encode_call pt size_x size_y css fmt]) pt) := by
  unfold encode encode_call
  refine triple_bind (triple_get_pitch o tr pt) (fun img => ?_)
  intro p hp
  obtain ⟨hp, rfl⟩ := hp
  revert p
  show triple o (ok_at o tr img) _ _
  split
  · exact triple_NVJPEG_CALL o tr img _ _
  · exact triple_NVJPEG_CALL o tr img _ _

theorem switch_format_supported {fmt : nvjpegOutputFormat_t} {n : Nat} {cm : Int}
    (h : resolve_format fmt = some (n, cm)) : switch_format fmt = pure (n, cm) := by
  unfold switch_format
  rw [h]

theorem switch_css_supported {fmt : nvjpegOutputFormat_t} {css : nvjpegChromaSubsampling_t}
    {mx my : Int} (h : resolve_mult fmt css = some (mx, my)) :
    switch_css fmt css = pure (mx, my) := by
  unfold switch_css
  rw [h]

/-- The trial for a supported configuration, from a fresh process: it ends
after the calls of `full_trace`, all successful, with "success" printed, or it
exits with EXIT_FAILURE at the first failing call. -/
theorem triple_attempt_encode (o : Oracle) (size_x size_y : Int) (opt_huffman : Bool)
    (css : nvjpegChromaSubsampling_t) (fmt : nvjpegOutputFormat_t) (n : Nat)
    (cm mx my : Int) (hfmt : resolve_format fmt = some (n, cm))
    (hcss : resolve_mult fmt css = some (mx, my)) :
    triple o (ok_at o [] [none, none, none, none])
      (attempt_encode o size_x size_y opt_huffman css fmt)
      (fun _ q => all_ok o q.trace ∧ printed_success q ∧
        q.trace = full_trace size_x size_y opt_huffman css fmt n mx my ∧
        q.pitch = alloc_pitch size_x mx n) := by
  unfold attempt_encode
  rw [switch_format_supported hfmt, switch_css_supported hcss]
  refine triple_bind (triple_print_header o _ _ _ _ _ _ _) (fun _ => ?_)
  refine triple_bind (triple_NVJPEG_CALL o _ _ _ _) (fun _ => ?_)
  simp only [pure_bind_prog]
  have hloop := triple_for_loop o (alloc_plane o size_x size_y mx my)
    (fun i => ok_at o (([] ++ [Call.nvjpegCreateExV2]) ++ alloc_calls size_x size_y mx my i)
      (alloc_pitch size_x mx i))
    (fun i => triple_alloc_plane o _ size_x size_y mx my i) n 0
  have e0 : ([] ++ [Call.nvjpegCreateExV2]) ++ alloc_calls size_x size_y mx my 0
      = [] ++ [Call.nvjpegCreateExV2] := by
    simp [alloc_calls]
  simp only [e0, alloc_pitch, Nat.zero_add] at hloop
  refine triple_bind hloop (fun _ => ?_)
  refine triple_bind (triple_NVJPEG_CALL o _ _ _ _) (fun _ => ?_)
  refine triple_bind (triple_NVJPEG_CALL o _ _ _ _) (fun _ => ?_)
  refine triple_bind (triple_NVJPEG_CALL o _ _ _ _) (fun _ => ?_)
  refine triple_bind (triple_NVJPEG_CALL o _ _ _ _) (fun _ => ?_)
  refine triple_bind (triple_NVJPEG_CALL o _ _ _ _) (fun _ => ?_)
  refine triple_bind (triple_NVJPEG_CALL o _ _ _ _) (fun _ => ?_)
  refine triple_bind (triple_encode o _ _ _ _ _ _) (fun _ => ?_)
  refine triple_bind (triple_NVJPEG_CALL o _ _ _ _) (fun _ => ?_)
  refine triple_bind (triple_NVJPEG_CALL o _ _ _ _) (fun _ => ?_)
  refine triple_bind (triple_CUDA_CALL o _ _ _ _ _) (fun _ => ?_)
  generalize htr : ([] ++ [Call.nvjpegCreateExV2] ++ alloc_calls size_x size_y mx my n ++
    [Call.nvjpegEncoderStateCreate] ++ [Call.nvjpegEncoderParamsCreate] ++
    [Call.nvjpegEncoderParamsSetSamplingFactors css] ++
    [Call.nvjpegEncoderParamsSetOptimizedHuffman (if opt_huffman = true then 1 else 0)] ++
    [Call.nvjpegEncoderParamsSetEncoding] ++ [Call.nvjpegEncoderParamsSetQuality 90] ++
    [encode_call (alloc_pitch size_x mx n) size_x size_y css fmt] ++
    [Call.nvjpegEncodeRetrieveBitstream false] ++ [Call.nvjpegEncodeRetrieveBitstream true] ++
    [Call.cudaDeviceSynchronize]) = tr
  have hfree := triple_for_loop o
    (fun i => CUDA_CALL o 215 "cudaFree(img.channel[i])" (Call.cudaFree i))
    (fun i => ok_at o (tr ++ (List.range i).map Call.cudaFree) (alloc_pitch size_x mx n))
    (fun i => triple_free_plane o tr _ i) n 0
  simp only [List.range_zero, List.map_nil, List.append_nil, Nat.zero_add] at hfree
  refine triple_bind hfree (fun _ => ?_)
  refine triple_bind (triple_NVJPEG_CALL o _ _ _ _) (fun _ => ?_)
  refine triple_bind (triple_NVJPEG_CALL o _ _ _ _) (fun _ => ?_)
  refine triple_bind (triple_NVJPEG_CALL o _ _ _ _) (fun _ => ?_)
  intro p hp
  obtain ⟨h1, _, h3, h4⟩ := hp
  refine ⟨h1, ?_, ?_, h4⟩
  · unfold printed_success
    simp [print]
  · simp only [print]
    rw [h3, ← htr]
    simp [full_trace]

theorem failed_at_last_not_all_ok {o : Oracle} {q : Proc} (h : failed_at_last o q) :
    ¬ all_ok o q.trace := by
  obtain ⟨⟨pre, c, e, _, hc⟩, _⟩ := h
  intro hall
  apply hc
  apply hall pre.length c
  rw [e]
  simp

theorem failed_at_last_position {o : Oracle} {q : Proc} (h : failed_at_last o q)
    (k : Nat) (c : Call) (hk : q.trace[k]? = some c) (hc : o.status k c ≠ 0) :
    k + 1 = q.trace.length := by
  obtain ⟨⟨pre, d, e, hpre, _⟩, _⟩ := h
  rw [e] at hk ⊢
  rcases Nat.lt_trichotomy k pre.length with hlt | heq | hgt
  · rw [List.getElem?_append_left hlt] at hk
    exact absurd (hpre k c hk) hc
  · simp [heq]
  · rw [List.getElem?_eq_none (by simp; omega)] at hk
    cases hk

/-- Outcome of the child of fork_attempt for a supported configuration: all
calls made succeeded, "success" is printed, the exit code is EXIT_SUCCESS and
the calls are those of `full_trace`; or the last call made failed, the others
succeeded, "success" is not printed and the exit code is EXIT_FAILURE. -/
theorem fork_attempt_child_outcome (o : Oracle) (size_x size_y : Int) (opt_huffman : Bool)
    (css : nvjpegChromaSubsampling_t) (fmt : nvjpegOutputFormat_t) (n : Nat)
    (cm mx my : Int) (hfmt : resolve_format fmt = some (n, cm))
    (hcss : resolve_mult fmt css = some (mx, my)) :
    (all_ok o (fork_attempt_child o size_x size_y opt_huffman css fmt).proc.trace ∧
      printed_success (fork_attempt_child o size_x size_y opt_huffman css fmt).proc ∧
      (fork_attempt_child o size_x size_y opt_huffman css fmt).code = EXIT_SUCCESS ∧
      (fork_attempt_child o size_x size_y opt_huffman css fmt).proc.trace
        = full_trace size_x size_y opt_huffman css fmt n mx my ∧
      (fork_attempt_child o size_x size_y opt_huffman css fmt).proc.pitch
        = alloc_pitch size_x mx n) ∨
    (failed_at_last o (fork_attempt_child o size_x size_y opt_huffman css fmt).proc ∧
      (fork_attempt_child o size_x size_y opt_huffman css fmt).code = EXIT_FAILURE) := by
  have key := triple_attempt_encode o size_x size_y opt_huffman css fmt n cm mx my hfmt hcss
    Proc.init ⟨all_ok_nil o, by simp [printed_success, Proc.init], rfl, rfl⟩
  unfold fork_attempt_child
  cases hrun : attempt_encode o size_x size_y opt_huffman css fmt Proc.init with
  | running a q =>
    rw [hrun] at key
    obtain ⟨h1, h2, h3, h4⟩ := key
    exact Or.inl ⟨h1, h2, rfl, h3, h4⟩
  | exited code q =>
    rw [hrun] at key
    exact Or.inr ⟨key.2, key.1⟩

/-- A trial in which every call made succeeded made the calls of
`full_trace` and left the pitches of `alloc_pitch`. -/
theorem trace_of_all_ok (o : Oracle) (size_x size_y : Int) (opt_huffman : Bool)
    (css : nvjpegChromaSubsampling_t) (fmt : nvjpegOutputFormat_t) (n : Nat)
    (cm mx my : Int) (hfmt : resolve_format fmt = some (n, cm))
    (hcss : resolve_mult fmt css = some (mx, my))
    (hok : all_ok o (fork_attempt_child o size_x size_y opt_huffman css fmt).proc.trace) :
    (fork_attempt_child o size_x size_y opt_huffman css fmt).proc.trace
      = full_trace size_x size_y opt_huffman css fmt n mx my ∧
    (fork_attempt_child o size_x size_y opt_huffman css fmt).proc.pitch
      = alloc_pitch size_x mx n := by
  rcases fork_attempt_child_outcome o size_x size_y opt_huffman css fmt n cm mx my hfmt hcss
    with ⟨_, _, _, h4, h5⟩ | ⟨h1, _⟩
  · exact ⟨h4, h5⟩
  · exact absurd hok (failed_at_last_not_all_ok h1)

theorem full_trace_length (size_x size_y : Int) (opt_huffman : Bool)
    (css : nvjpegChromaSubsampling_t) (fmt : nvjpegOutputFormat_t) (n : Nat) (mx my : Int) :
    (full_trace size_x size_y opt_huffman css fmt n mx my).length = 2 * n + 14 := by
  simp [full_trace, alloc_calls]
  omega

/-! ## Claims on the trial -/

/-- Claim C3: with every CUDA / nvJPEG call answered by an oracle, for every
configuration with a supported format and subsampling, the child of
fork_attempt prints "success" and exits with EXIT_SUCCESS if and only if every
call it made returned its success status (it then made all 2 * n + 14 calls);
and a call that returns another status is the last call made, the process
exits with EXIT_FAILURE and "success" is not printed. -/
theorem C3_success_iff_all_calls_succeed (o : Oracle) (size_x size_y : Int)
    (opt_huffman : Bool) (css : nvjpegChromaSubsampling_t) (fmt : nvjpegOutputFormat_t)
    (n : Nat) (cm mx my : Int) (hfmt : resolve_format fmt = some (n, cm))
    (hcss : resolve_mult fmt css = some (mx, my)) :
    ((printed_success (fork_attempt_child o size_x size_y opt_huffman css fmt).proc ∧
        (fork_attempt_child o size_x size_y opt_huffman css fmt).code = EXIT_SUCCESS) ↔
      all_ok o (fork_attempt_child o size_x size_y opt_huffman css fmt).proc.trace) ∧
    (all_ok o (fork_attempt_child o size_x size_y opt_huffman css fmt).proc.trace →
      (fork_attempt_child o size_x size_y opt_huffman css fmt).proc.trace.length
        = 2 * n + 14) ∧
    (∀ k c, (fork_attempt_child o size_x size_y opt_huffman css fmt).proc.trace[k]? = some c →
      o.status k c ≠ 0 →
      k + 1 = (fork_attempt_child o size_x size_y opt_huffman css fmt).proc.trace.length ∧
      (fork_attempt_child o size_x size_y opt_huffman css fmt).code = EXIT_FAILURE ∧
      ¬ printed_success (fork_attempt_child o size_x size_y opt_huffman css fmt).proc) := by
  have hne : ¬ (EXIT_FAILURE = EXIT_SUCCESS) := by decide
  rcases fork_attempt_child_outcome o size_x size_y opt_huffman css fmt n cm mx my hfmt hcss
    with ⟨h1, h2, h3, h4, _⟩ | ⟨h1, h2⟩
  · refine ⟨⟨fun _ => h1, fun _ => ⟨h2, h3⟩⟩, fun _ => ?_, ?_⟩
    · rw [h4]
      exact full_trace_length _ _ _ _ _ _ _ _
    · intro k c hk hc
      exact absurd (h1 k c hk) hc
  · refine ⟨⟨fun h => ?_, fun h => absurd h (failed_at_last_not_all_ok h1)⟩,
      fun h => absurd h (failed_at_last_not_all_ok h1), ?_⟩
    · rw [h2] at h
      exact absurd h.2 hne
    · intro k c hk hc
      exact ⟨failed_at_last_position h1 k c hk hc, h2, h1.2⟩

/-- Claim C3 at a concrete input: width 1, height 1, YUV with subsampling
4:2:0, under the oracle for which every call succeeds. -/
theorem C3_success_iff_all_calls_succeed_witness :
    resolve_format NVJPEG_OUTPUT_YUV = some (3, 1) ∧
    resolve_mult NVJPEG_OUTPUT_YUV NVJPEG_CSS_420 = some (2, 2) ∧
    (((printed_success
          (fork_attempt_child all_success 1 1 false NVJPEG_CSS_420 NVJPEG_OUTPUT_YUV).proc ∧
        (fork_attempt_child all_success 1 1 false NVJPEG_CSS_420 NVJPEG_OUTPUT_YUV).code
          = EXIT_SUCCESS) ↔
      all_ok all_success
        (fork_attempt_child all_success 1 1 false NVJPEG_CSS_420 NVJPEG_OUTPUT_YUV).proc.trace) ∧
    (all_ok all_success
        (fork_attempt_child all_success 1 1 false NVJPEG_CSS_420 NVJPEG_OUTPUT_YUV).proc.trace →
      (fork_attempt_child all_success 1 1 false NVJPEG_CSS_420
        NVJPEG_OUTPUT_YUV).proc.trace.length = 2 * 3 + 14) ∧
    (∀ k c,
      (fork_attempt_child all_success 1 1 false NVJPEG_CSS_420
        NVJPEG_OUTPUT_YUV).proc.trace[k]? = some c →
      all_success.status k c ≠ 0 →
      k + 1 = (fork_attempt_child all_success 1 1 false NVJPEG_CSS_420
        NVJPEG_OUTPUT_YUV).proc.trace.length ∧
      (fork_attempt_child all_success 1 1 false NVJPEG_CSS_420 NVJPEG_OUTPUT_YUV).code
        = EXIT_FAILURE ∧
      ¬ printed_success
        (fork_attempt_child all_success 1 1 false NVJPEG_CSS_420 NVJPEG_OUTPUT_YUV).proc)) :=
  ⟨rfl, rfl,
    C3_success_iff_all_calls_succeed all_success 1 1 false NVJPEG_CSS_420 NVJPEG_OUTPUT_YUV
      3 1 2 2 rfl rfl⟩

theorem filter_release_full_trace (size_x size_y : Int) (opt_huffman : Bool)
    (css : nvjpegChromaSubsampling_t) (fmt : nvjpegOutputFormat_t) (n : Nat) (mx my : Int) :
    (full_trace size_x size_y opt_huffman css fmt n mx my).filter Call.is_release =
      (List.range n).map Call.cudaFree ++
      [Call.nvjpegEncoderParamsDestroy, Call.nvjpegEncoderStateDestroy, Call.nvjpegDestroy] := by
  have h1 : (alloc_calls size_x size_y mx my n).filter Call.is_release = [] := by
    rw [List.filter_eq_nil_iff]
    intro c hc
    simp only [alloc_calls, List.mem_map] at hc
    obtain ⟨i, _, rfl⟩ := hc
    simp [Call.is_release]
  have h2 : ((List.range n).map Call.cudaFree).filter Call.is_release =
      (List.range n).map Call.cudaFree := by
    rw [List.filter_eq_self]
    intro c hc
    simp only [List.mem_map] at hc
    obtain ⟨i, _, rfl⟩ := hc
    rfl
  have h3 : (encode_call (alloc_pitch size_x mx n) size_x size_y css fmt).is_release = false := by
    unfold encode_call
    split <;> rfl
  simp [full_trace, List.filter_append, h1, h2, List.filter_cons, Call.is_release]
  exact h3

theorem filter_acquire_full_trace (size_x size_y : Int) (opt_huffman : Bool)
    (css : nvjpegChromaSubsampling_t) (fmt : nvjpegOutputFormat_t) (n : Nat) (mx my : Int) :
    (full_trace size_x size_y opt_huffman css fmt n mx my).filter Call.is_acquire =
      [Call.nvjpegCreateExV2] ++ alloc_calls size_x size_y mx my n ++
      [Call.nvjpegEncoderStateCreate, Call.nvjpegEncoderParamsCreate] := by
  have h1 : (alloc_calls size_x size_y mx my n).filter Call.is_acquire =
      alloc_calls size_x size_y mx my n := by
    rw [List.filter_eq_self]
    intro c hc
    simp only [alloc_calls, List.mem_map] at hc
    obtain ⟨i, _, rfl⟩ := hc
    rfl
  have h2 : ((List.range n).map Call.cudaFree).filter Call.is_acquire = [] := by
    rw [List.filter_eq_nil_iff]
    intro c hc
    simp only [List.mem_map] at hc
    obtain ⟨i, _, rfl⟩ := hc
    simp [Call.is_acquire]
  have h3 : (encode_call (alloc_pitch size_x mx n) size_x size_y css fmt).is_acquire = false := by
    unfold encode_call
    split <;> rfl
  simp [full_trace, List.filter_append, h1, h2, List.filter_cons, Call.is_acquire]
  exact h3

/-- Claim C9 as stated fails: in the all-success trial of width 1, height 1,
YUV 4:4:4, the release calls are not the acquisitions' releases in reverse
order: the three buffers are freed first, in ascending order. -/
theorem C9_release_order_not_reversed :
    all_ok all_success
      (fork_attempt_child all_success 1 1 false NVJPEG_CSS_444 NVJPEG_OUTPUT_YUV).proc.trace ∧
    (fork_attempt_child all_success 1 1 false NVJPEG_CSS_444
        NVJPEG_OUTPUT_YUV).proc.trace.filter Call.is_release ≠
      ((fork_attempt_child all_success 1 1 false NVJPEG_CSS_444
        NVJPEG_OUTPUT_YUV).proc.trace.filterMap Call.release_of).reverse ∧
    (fork_attempt_child all_success 1 1 false NVJPEG_CSS_444
        NVJPEG_OUTPUT_YUV).proc.trace.filter Call.is_release =
      [Call.cudaFree 0, Call.cudaFree 1, Call.cudaFree 2, Call.nvjpegEncoderParamsDestroy,
        Call.nvjpegEncoderStateDestroy, Call.nvjpegDestroy] ∧
    ((fork_attempt_child all_success 1 1 false NVJPEG_CSS_444
        NVJPEG_OUTPUT_YUV).proc.trace.filterMap Call.release_of).reverse =
      [Call.nvjpegEncoderParamsDestroy, Call.nvjpegEncoderStateDestroy, Call.cudaFree 2,
        Call.cudaFree 1, Call.cudaFree 0, Call.nvjpegDestroy] := by
  have htr := (trace_of_all_ok all_success 1 1 false NVJPEG_CSS_444 NVJPEG_OUTPUT_YUV 3 1 1 1
    rfl rfl (fun _ _ _ => rfl)).1
  rw [htr]
  refine ⟨fun _ _ _ => rfl, ?_, ?_, ?_⟩
  · decide
  · decide
  · decide

/-- Claim C9, amended: in a trial of a supported configuration where every
call succeeds, the acquisitions occur in the order codec session, device
buffers 0..n-1, encoder-state, encoder-params, and the release calls occur in
the order device buffers 0..n-1, encoder-params, encoder-state, codec
session. -/
theorem C9_release_order (o : Oracle) (size_x size_y : Int) (opt_huffman : Bool)
    (css : nvjpegChromaSubsampling_t) (fmt : nvjpegOutputFormat_t) (n : Nat)
    (cm mx my : Int) (hfmt : resolve_format fmt = some (n, cm))
    (hcss : resolve_mult fmt css = some (mx, my))
    (hok : all_ok o (fork_attempt_child o size_x size_y opt_huffman css fmt).proc.trace) :
    (fork_attempt_child o size_x size_y opt_huffman css fmt).proc.trace.filter Call.is_acquire =
      [Call.nvjpegCreateExV2] ++ alloc_calls size_x size_y mx my n ++
      [Call.nvjpegEncoderStateCreate, Call.nvjpegEncoderParamsCreate] ∧
    (fork_attempt_child o size_x size_y opt_huffman css fmt).proc.trace.filter Call.is_release =
      (List.range n).map Call.cudaFree ++
      [Call.nvjpegEncoderParamsDestroy, Call.nvjpegEncoderStateDestroy, Call.nvjpegDestroy] := by
  rcases fork_attempt_child_outcome o size_x size_y opt_huffman css fmt n cm mx my hfmt hcss
    with ⟨_, _, _, h4, _⟩ | ⟨h1, _⟩
  · rw [h4]
    exact ⟨filter_acquire_full_trace _ _ _ _ _ _ _ _, filter_release_full_trace _ _ _ _ _ _ _ _⟩
  · exact absurd hok (failed_at_last_not_all_ok h1)

/-- Claim C9, amended, at a concrete input: width 1, height 1, YUV 4:4:4,
under the oracle for which every call succeeds. -/
theorem C9_release_order_witness :
    resolve_format NVJPEG_OUTPUT_YUV = some (3, 1) ∧
    resolve_mult NVJPEG_OUTPUT_YUV NVJPEG_CSS_444 = some (1, 1) ∧
    all_ok all_success
      (fork_attempt_child all_success 1 1 false NVJPEG_CSS_444 NVJPEG_OUTPUT_YUV).proc.trace ∧
    (fork_attempt_child all_success 1 1 false NVJPEG_CSS_444
        NVJPEG_OUTPUT_YUV).proc.trace.filter Call.is_acquire =
      [Call.nvjpegCreateExV2] ++ alloc_calls 1 1 1 1 3 ++
      [Call.nvjpegEncoderStateCreate, Call.nvjpegEncoderParamsCreate] ∧
    (fork_attempt_child all_success 1 1 false NVJPEG_CSS_444
        NVJPEG_OUTPUT_YUV).proc.trace.filter Call.is_release =
      (List.range 3).map Call.cudaFree ++
      [Call.nvjpegEncoderParamsDestroy, Call.nvjpegEncoderStateDestroy, Call.nvjpegDestroy] :=
  ⟨rfl, rfl, fun _ _ _ => rfl,
    C9_release_order all_success 1 1 false NVJPEG_CSS_444 NVJPEG_OUTPUT_YUV 3 1 1 1 rfl rfl
      (fun _ _ _ => rfl)⟩

/-- A format outside the five supported ones ends the trial with EXIT_FAILURE
right after the session is created. -/
theorem unsupported_format_exit (o : Oracle) (size_x size_y : Int) (opt_huffman : Bool)
    (css : nvjpegChromaSubsampling_t) (raw : Int) :
    (fork_attempt_child o size_x size_y opt_huffman css (.other raw)).code = EXIT_FAILURE ∧
    (fork_attempt_child o size_x size_y opt_huffman css (.other raw)).proc.trace
      = [Call.nvjpegCreateExV2] := by
  by_cases hc : o.status 0 Call.nvjpegCreateExV2 = 0
  · simp [fork_attempt_child, attempt_encode, print_header, switch_format, resolve_format,
      bind, Prog.bind, print, NVJPEG_CALL, std_exit, Proc.init, NVJPEG_STATUS_SUCCESS, hc]
  · have hc2 : ¬ (0 = o.status 0 Call.nvjpegCreateExV2) := fun e => hc e.symm
    simp [fork_attempt_child, attempt_encode, print_header, switch_format, resolve_format,
      bind, Prog.bind, print, NVJPEG_CALL, std_exit, Proc.init, NVJPEG_STATUS_SUCCESS, hc2]

/-- A subsampling outside the six supported ones, with the YUV format, ends the
trial with EXIT_FAILURE right after the session is created. -/
theorem unsupported_css_exit (o : Oracle) (size_x size_y : Int) (opt_huffman : Bool)
    (raw : Int) :
    (fork_attempt_child o size_x size_y opt_huffman (.other raw) NVJPEG_OUTPUT_YUV).code
      = EXIT_FAILURE ∧
    (fork_attempt_child o size_x size_y opt_huffman (.other raw) NVJPEG_OUTPUT_YUV).proc.trace
      = [Call.nvjpegCreateExV2] := by
  by_cases hc : o.status 0 Call.nvjpegCreateExV2 = 0
  · simp [fork_attempt_child, attempt_encode, print_header, switch_format, resolve_format,
      switch_css, resolve_mult, resolve_css,
      bind, Prog.bind, print, NVJPEG_CALL, std_exit, Proc.init, NVJPEG_STATUS_SUCCESS, hc]
  · have hc2 : ¬ (0 = o.status 0 Call.nvjpegCreateExV2) := fun e => hc e.symm
    simp [fork_attempt_child, attempt_encode, print_header, switch_format, resolve_format,
      switch_css, resolve_mult, resolve_css,
      bind, Prog.bind, print, NVJPEG_CALL, std_exit, Proc.init, NVJPEG_STATUS_SUCCESS, hc2]

/-- Claim C4: the format switch of attempt_encode yields (num_channels,
channel_mult) = (3,1) for YUV, RGB and BGR and (1,3) for RGBI and BGRI, and any
other format prints "unsupported format" and ends the trial with EXIT_FAILURE;
for the YUV format the subsampling switch yields (mult_x, mult_y) = (1,1),
(2,1), (2,2), (1,2), (4,1), (4,2) for 4:4:4, 4:2:2, 4:2:0, 4:4:0, 4:1:1, 4:1:0,
and any other subsampling prints "unsupported subsampling" and ends the trial
with EXIT_FAILURE; for RGB, BGR, RGBI and BGRI the resolution is the same
for every subsampling argument, the multipliers staying (1,1). -/
theorem C4_resolution_tables :
    (∀ p, switch_format NVJPEG_OUTPUT_YUV p = Step.running (3, 1) p ∧
      switch_format NVJPEG_OUTPUT_RGB p = Step.running (3, 1) p ∧
      switch_format NVJPEG_OUTPUT_BGR p = Step.running (3, 1) p ∧
      switch_format NVJPEG_OUTPUT_RGBI p = Step.running (1, 3) p ∧
      switch_format NVJPEG_OUTPUT_BGRI p = Step.running (1, 3) p) ∧
    (∀ raw p, switch_format (.other raw) p =
      Step.exited EXIT_FAILURE ⟨p.out ++ ["unsupported format\n"], p.trace, p.pitch⟩) ∧
    (∀ o size_x size_y opt_huffman css raw,
      (fork_attempt_child o size_x size_y opt_huffman css (.other raw)).code = EXIT_FAILURE) ∧
    (∀ p, switch_css NVJPEG_OUTPUT_YUV NVJPEG_CSS_444 p = Step.running (1, 1) p ∧
      switch_css NVJPEG_OUTPUT_YUV NVJPEG_CSS_422 p = Step.running (2, 1) p ∧
      switch_css NVJPEG_OUTPUT_YUV NVJPEG_CSS_420 p = Step.running (2, 2) p ∧
      switch_css NVJPEG_OUTPUT_YUV NVJPEG_CSS_440 p = Step.running (1, 2) p ∧
      switch_css NVJPEG_OUTPUT_YUV NVJPEG_CSS_411 p = Step.running (4, 1) p ∧
      switch_css NVJPEG_OUTPUT_YUV NVJPEG_CSS_410 p = Step.running (4, 2) p) ∧
    (∀ raw p, switch_css NVJPEG_OUTPUT_YUV (.other raw) p =
      Step.exited EXIT_FAILURE ⟨p.out ++ ["unsupported subsampling\n"], p.trace, p.pitch⟩) ∧
    (∀ o size_x size_y opt_huffman raw,
      (fork_attempt_child o size_x size_y opt_huffman (.other raw) NVJPEG_OUTPUT_YUV).code
        = EXIT_FAILURE) ∧
    (∀ css p, switch_css NVJPEG_OUTPUT_RGB css p = Step.running (1, 1) p ∧
      switch_css NVJPEG_OUTPUT_BGR css p = Step.running (1, 1) p ∧
      switch_css NVJPEG_OUTPUT_RGBI css p = Step.running (1, 1) p ∧
      switch_css NVJPEG_OUTPUT_BGRI css p = Step.running (1, 1) p) := by
  refine ⟨fun p => ⟨rfl, rfl, rfl, rfl, rfl⟩, fun raw p => rfl, ?_,
    fun p => ⟨rfl, rfl, rfl, rfl, rfl, rfl⟩, fun raw p => rfl, ?_,
    fun css p => ⟨rfl, rfl, rfl, rfl⟩⟩
  · intro o size_x size_y opt_huffman css raw
    exact (unsupported_format_exit o size_x size_y opt_huffman css raw).1
  · intro o size_x size_y opt_huffman raw
    exact (unsupported_css_exit o size_x size_y opt_huffman raw).1

/-! ## Standard output only grows -/

theorem out_grows_bind {α β : Type} {m : Prog Proc α} {f : α → Prog Proc β}
    (hm : out_grows m) (hf : ∀ a, out_grows (f a)) : out_grows (m >>= f) := by
  intro p
  obtain ⟨r1, h1⟩ := hm p
  show ∃ rest, (Prog.bind m f p).state.out = p.out ++ rest
  unfold Prog.bind
  cases hmp : m p with
  | running a t =>
    rw [hmp] at h1
    obtain ⟨r2, h2⟩ := hf a t
    refine ⟨r1 ++ r2, ?_⟩
    simp only [Step.state] at h1
    rw [h2, h1, List.append_assoc]
  | exited code t =>
    rw [hmp] at h1
    exact ⟨r1, h1⟩

theorem out_grows_pure {α : Type} (a : α) : out_grows (pure a : Prog Proc α) :=
  fun _ => ⟨[], (List.append_nil _).symm⟩

theorem out_grows_print (text : String) : out_grows (print text) :=
  fun _ => ⟨[text], rfl⟩

theorem out_grows_std_exit {α : Type} (code : Nat) : out_grows (std_exit code : Prog Proc α) :=
  fun _ => ⟨[], (List.append_nil _).symm⟩

theorem out_grows_NVJPEG_CALL (o : Oracle) (line : Nat) (c : Call) :
    out_grows (NVJPEG_CALL o line c) := by
  intro p
  unfold NVJPEG_CALL
  dsimp only
  split
  · exact ⟨_, rfl⟩
  · exact ⟨[], (List.append_nil _).symm⟩

theorem out_grows_CUDA_CALL (o : Oracle) (line : Nat) (text : String) (c : Call) :
    out_grows (CUDA_CALL o line text c) := by
  intro p
  unfold CUDA_CALL
  dsimp only
  split
  · exact ⟨_, rfl⟩
  · exact ⟨[], (List.append_nil _).symm⟩

theorem out_grows_for_loop (body : Nat → Prog Proc Unit) (hbody : ∀ i, out_grows (body i))
    (fuel : Nat) : ∀ i, out_grows (for_loop body fuel i) := by
  induction fuel with
  | zero => exact fun i => out_grows_pure ()
  | succ k ih => exact fun i => out_grows_bind (hbody i) (fun _ => ih (i + 1))

theorem out_grows_after_header (o : Oracle) (size_x size_y : Int) (opt_huffman : Bool)
    (css : nvjpegChromaSubsampling_t) (fmt : nvjpegOutputFormat_t) :
    ∃ f : Unit → Prog Proc Unit, (∀ a, out_grows (f a)) ∧
      attempt_encode o size_x size_y opt_huffman css fmt =
        (print_header size_x size_y opt_huffman css fmt >>= f) := by
  refine ⟨_, ?_, rfl⟩
  intro _
  refine out_grows_bind (out_grows_NVJPEG_CALL o _ _) (fun _ => ?_)
  refine out_grows_bind ?_ (fun r => ?_)
  · unfold switch_format
    split
    · exact out_grows_pure _
    · exact out_grows_bind (out_grows_print _) (fun _ => out_grows_std_exit _)
  refine out_grows_bind ?_ (fun r2 => ?_)
  · unfold switch_css
    split
    · exact out_grows_pure _
    · exact out_grows_bind (out_grows_print _) (fun _ => out_grows_std_exit _)
  refine out_grows_bind (out_grows_for_loop _ (fun i => ?_) _ _) (fun _ => ?_)
  · exact out_grows_bind (out_grows_CUDA_CALL o _ _ _) (fun _ => fun _ => ⟨[], by simp [set_pitch, Step.state]⟩)
  refine out_grows_bind (out_grows_NVJPEG_CALL o _ _) (fun _ => ?_)
  refine out_grows_bind (out_grows_NVJPEG_CALL o _ _) (fun _ => ?_)
  refine out_grows_bind (out_grows_NVJPEG_CALL o _ _) (fun _ => ?_)
  refine out_grows_bind (out_grows_NVJPEG_CALL o _ _) (fun _ => ?_)
  refine out_grows_bind (out_grows_NVJPEG_CALL o _ _) (fun _ => ?_)
  refine out_grows_bind (out_grows_NVJPEG_CALL o _ _) (fun _ => ?_)
  refine out_grows_bind ?_ (fun _ => ?_)
  · unfold encode
    refine out_grows_bind (fun _ => ⟨[], by simp [get_pitch, Step.state]⟩) (fun _ => ?_)
    split
    · exact out_grows_NVJPEG_CALL o _ _
    · exact out_grows_NVJPEG_CALL o _ _
  refine out_grows_bind (out_grows_NVJPEG_CALL o _ _) (fun _ => ?_)
  refine out_grows_bind (out_grows_NVJPEG_CALL o _ _) (fun _ => ?_)
  refine out_grows_bind (out_grows_CUDA_CALL o _ _ _) (fun _ => ?_)
  refine out_grows_bind (out_grows_for_loop _ (fun i => out_grows_CUDA_CALL o _ _ _) _ _)
    (fun _ => ?_)
  refine out_grows_bind (out_grows_NVJPEG_CALL o _ _) (fun _ => ?_)
  refine out_grows_bind (out_grows_NVJPEG_CALL o _ _) (fun _ => ?_)
  refine out_grows_bind (out_grows_NVJPEG_CALL o _ _) (fun _ => ?_)
  exact out_grows_print _

theorem fork_attempt_child_proc (o : Oracle) (size_x size_y : Int) (opt_huffman : Bool)
    (css : nvjpegChromaSubsampling_t) (fmt : nvjpegOutputFormat_t) :
    (fork_attempt_child o size_x size_y opt_huffman css fmt).proc =
      (attempt_encode o size_x size_y opt_huffman css fmt Proc.init).state := by
  unfold fork_attempt_child
  cases attempt_encode o size_x size_y opt_huffman css fmt Proc.init <;> rfl

theorem print_header_run (size_x size_y : Int) (opt_huffman : Bool)
    (css : nvjpegChromaSubsampling_t) (fmt : nvjpegOutputFormat_t) :
    print_header size_x size_y opt_huffman css fmt Proc.init =
      Step.running ()
        ⟨header_chunks size_x size_y opt_huffman css fmt, [], [none, none, none, none]⟩ := by
  by_cases h : fmt = NVJPEG_OUTPUT_YUV
  · simp [header_chunks, print_header, print, bind, Prog.bind, Proc.init, h]
  · simp [header_chunks, print_header, print, bind, Prog.bind, Proc.init, h]

/-- Claim C6: for every configuration the text that attempt_encode writes
before its first codec call is "size:W x H,opt_huffman:B,fmt:FMT" (without the
blanks), then ",css:CSS" exactly when the format is YUV, then ": ", with W and
H the decimal width and height, B true or false, and FMT and CSS the texts of
fmt_to_cstr and css_to_cstr; no call is made while it is written and the
output of the trial starts with it. For width 1, height 1, opt_huffman false,
YUV and 4:2:0 the text is "size:1x1,opt_huffman:false,fmt:YUV,css:4:2:0: ". -/
theorem C6_header_text (o : Oracle) (size_x size_y : Int) (opt_huffman : Bool)
    (css : nvjpegChromaSubsampling_t) (fmt : nvjpegOutputFormat_t) :
    String.join (header_chunks size_x size_y opt_huffman css fmt) =
      "size:" ++ toString size_x ++ "x" ++ toString size_y ++ ",opt_huffman:"
        ++ (if opt_huffman then "true" else "false") ++ ",fmt:" ++ fmt_to_cstr fmt
        ++ (if fmt = NVJPEG_OUTPUT_YUV then ",css:" ++ css_to_cstr css else "") ++ ": " ∧
    (print_header size_x size_y opt_huffman css fmt Proc.init).state.trace = [] ∧
    (∃ rest, (fork_attempt_child o size_x size_y opt_huffman css fmt).proc.out =
      header_chunks size_x size_y opt_huffman css fmt ++ rest) ∧
    (fmt_to_cstr NVJPEG_OUTPUT_YUV = "YUV" ∧ fmt_to_cstr NVJPEG_OUTPUT_RGB = "RGB" ∧
      fmt_to_cstr NVJPEG_OUTPUT_BGR = "BGR" ∧ fmt_to_cstr NVJPEG_OUTPUT_RGBI = "RGBI" ∧
      fmt_to_cstr NVJPEG_OUTPUT_BGRI = "BGRI") ∧
    (css_to_cstr NVJPEG_CSS_444 = "4:4:4" ∧ css_to_cstr NVJPEG_CSS_422 = "4:2:2" ∧
      css_to_cstr NVJPEG_CSS_420 = "4:2:0" ∧ css_to_cstr NVJPEG_CSS_440 = "4:4:0" ∧
      css_to_cstr NVJPEG_CSS_411 = "4:1:1" ∧ css_to_cstr NVJPEG_CSS_410 = "4:1:0") ∧
    String.join (header_chunks 1 1 false NVJPEG_CSS_420 NVJPEG_OUTPUT_YUV) =
      "size:1x1,opt_huffman:false,fmt:YUV,css:4:2:0: " := by
  refine ⟨?_, ?_, ?_, ⟨rfl, rfl, rfl, rfl, rfl⟩, ⟨rfl, rfl, rfl, rfl, rfl, rfl⟩, by decide⟩
  · by_cases h : fmt = NVJPEG_OUTPUT_YUV
    · simp [header_chunks, print_header, print, bind, Prog.bind, Proc.init, h, String.join,
        boolalpha, String.append_assoc]
    · simp [header_chunks, print_header, print, bind, Prog.bind, Proc.init, h, String.join,
        boolalpha, String.append_assoc]
  · rw [print_header_run]
    rfl
  · obtain ⟨f, hf, e⟩ := out_grows_after_header o size_x size_y opt_huffman css fmt
    obtain ⟨rest, hrest⟩ := hf () ⟨header_chunks size_x size_y opt_huffman css fmt, [],
      [none, none, none, none]⟩
    refine ⟨rest, ?_⟩
    rw [fork_attempt_child_proc, e]
    show (Prog.bind (print_header size_x size_y opt_huffman css fmt) f Proc.init).state.out = _
    unfold Prog.bind
    rw [print_header_run]
    exact hrest

/-! ## The sweep -/

theorem runs_appending_bind {m : Prog Parent Unit} {f : Unit → Prog Parent Unit}
    {l1 l2 : List Config} (hm : runs_appending m l1) (hf : ∀ a, runs_appending (f a) l2) :
    runs_appending (m >>= f) (l1 ++ l2) := by
  intro s
  show Prog.bind m f s = _
  unfold Prog.bind
  rw [hm s]
  dsimp only
  rw [hf () _, List.append_assoc]

theorem runs_appending_pure : runs_appending (pure ()) [] := by
  intro s
  show Step.running () s = _
  rw [List.append_nil]

theorem runs_appending_for_each {α : Type} (body : α → Prog Parent Unit)
    (g : α → List Config) (hbody : ∀ v, runs_appending (body v) (g v)) (xs : List α) :
    runs_appending (for_each body xs) (xs.flatMap g) := by
  induction xs with
  | nil => exact runs_appending_pure
  | cons v vs ih =>
    rw [List.flatMap_cons]
    exact runs_appending_bind (hbody v) (fun _ => ih)

theorem runs_appending_for_loop (body : Nat → Prog Parent Unit) (g : Nat → List Config)
    (hbody : ∀ i, runs_appending (body i) (g i)) (fuel : Nat) :
    ∀ i, runs_appending (for_loop body fuel i)
      ((List.range fuel).flatMap (fun k => g (i + k))) := by
  induction fuel with
  | zero =>
    intro i
    exact runs_appending_pure
  | succ n ih =>
    intro i
    have e : (List.range (n + 1)).flatMap (fun k => g (i + k)) =
        g i ++ (List.range n).flatMap (fun k => g (i + 1 + k)) := by
      rw [List.range_succ_eq_map, List.flatMap_cons, List.flatMap_map]
      simp [Nat.add_assoc, Nat.add_comm 1]
    rw [e]
    exact runs_appending_bind (hbody i) (fun _ => ih (i + 1))

theorem runs_appending_fork_attempt (fork_fails : Nat → Bool)
    (hfork : ∀ k, fork_fails k = false) (size_x size_y : Int) (opt_huffman : Bool)
    (css : nvjpegChromaSubsampling_t) (fmt : nvjpegOutputFormat_t) :
    runs_appending (fork_attempt fork_fails size_x size_y opt_huffman css fmt)
      [⟨size_x, size_y, opt_huffman, css, fmt⟩] := by
  intro s
  simp [fork_attempt, hfork]

/-- With no failing fork, main returns after the calls of `sweep_spec`. -/
theorem main_run (fork_fails : Nat → Bool) (hfork : ∀ k, fork_fails k = false) :
    main fork_fails ⟨[]⟩ = Step.running () ⟨sweep_spec⟩ := by
  have h := runs_appending_for_loop _ _ (fun x =>
    runs_appending_for_loop _ _ (fun y =>
      runs_appending_for_each _ _ (fun opt_huffman =>
        runs_appending_bind
          (runs_appending_for_each _ _ (fun css =>
            runs_appending_fork_attempt fork_fails hfork x y opt_huffman css NVJPEG_OUTPUT_YUV)
            [NVJPEG_CSS_444, NVJPEG_CSS_422, NVJPEG_CSS_420, NVJPEG_CSS_440, NVJPEG_CSS_411,
              NVJPEG_CSS_410])
          (fun _ => runs_appending_for_each _ _ (fun fmt =>
            runs_appending_fork_attempt fork_fails hfork x y opt_huffman NVJPEG_CSS_444 fmt)
            [NVJPEG_OUTPUT_RGB, NVJPEG_OUTPUT_BGR, NVJPEG_OUTPUT_RGBI, NVJPEG_OUTPUT_BGRI]))
        [false, true]) 32 1) 32 1 ⟨[]⟩
  unfold main
  dsimp only [Nat.reduceAdd, Nat.reduceSub] at h ⊢
  refine h.trans (congrArg (fun l => Step.running () (Parent.mk l)) ?_)
  simp only [sweep_spec, sweep_block, List.nil_append, List.flatMap_cons, List.flatMap_nil,
    List.map_cons, List.map_nil, List.append_nil, List.cons_append, Nat.cast_add, Nat.cast_one,
    add_comm]

theorem length_flatMap_const {α β : Type} (f : α → List β) (c : Nat)
    (hf : ∀ a, (f a).length = c) (l : List α) : (l.flatMap f).length = l.length * c := by
  induction l with
  | nil => simp
  | cons a as ih =>
    rw [List.flatMap_cons, List.length_append, ih, hf a, List.length_cons]
    ring

theorem sweep_spec_length : sweep_spec.length = 20480 := by
  unfold sweep_spec
  rw [length_flatMap_const _ 640, List.length_range]
  intro i
  rw [length_flatMap_const _ 20, List.length_range]
  intro j
  rw [length_flatMap_const _ 10]
  · rfl
  · intro b
    rfl

theorem mem_sweep_block (c : Config) (w h : Int) (b : Bool) :
    c ∈ sweep_block w h b ↔
      c.size_x = w ∧ c.size_y = h ∧ c.opt_huffman = b ∧
      ((c.fmt = NVJPEG_OUTPUT_YUV ∧
          (c.css = NVJPEG_CSS_444 ∨ c.css = NVJPEG_CSS_422 ∨ c.css = NVJPEG_CSS_420 ∨
            c.css = NVJPEG_CSS_440 ∨ c.css = NVJPEG_CSS_411 ∨ c.css = NVJPEG_CSS_410)) ∨
        ((c.fmt = NVJPEG_OUTPUT_RGB ∨ c.fmt = NVJPEG_OUTPUT_BGR ∨ c.fmt = NVJPEG_OUTPUT_RGBI ∨
            c.fmt = NVJPEG_OUTPUT_BGRI) ∧ c.css = NVJPEG_CSS_444)) := by
  obtain ⟨x, y, oh, css, fmt⟩ := c
  simp only [sweep_block, List.map_cons, List.map_nil, List.cons_append, List.nil_append,
    List.mem_cons, List.mem_nil_iff, or_false, Config.mk.injEq]
  constructor
  · rintro (h | h | h | h | h | h | h | h | h | h) <;>
      obtain ⟨rfl, rfl, rfl, rfl, rfl⟩ := h <;> simp
  · rintro ⟨rfl, rfl, rfl, ⟨rfl, h | h | h | h | h | h⟩ | ⟨h | h | h | h, rfl⟩⟩ <;>
      subst h <;> simp

theorem sweep_block_nodup (w h : Int) (b : Bool) : (sweep_block w h b).Nodup := by
  simp [sweep_block]

theorem sweep_spec_nodup : sweep_spec.Nodup := by
  unfold sweep_spec
  rw [List.nodup_flatMap]
  refine ⟨fun i _ => ?_, ?_⟩
  · rw [List.nodup_flatMap]
    refine ⟨fun j _ => ?_, ?_⟩
    · rw [List.nodup_flatMap]
      refine ⟨fun b _ => sweep_block_nodup _ _ b, ?_⟩
      simp only [List.pairwise_cons, List.mem_singleton, List.mem_nil_iff, forall_eq,
        List.Pairwise.nil, and_true, false_imp_iff, implies_true]
      intro c h1 h2
      rw [mem_sweep_block] at h1 h2
      have := h1.2.2.1.symm.trans h2.2.2.1
      cases this
    · refine (List.nodup_range 32).imp ?_
      intro a b hab c h1 h2
      simp only [List.mem_flatMap, mem_sweep_block] at h1 h2
      obtain ⟨_, _, _, e1, _⟩ := h1
      obtain ⟨_, _, _, e2, _⟩ := h2
      omega
  · refine (List.nodup_range 32).imp ?_
    intro a b hab c h1 h2
    simp only [List.mem_flatMap, mem_sweep_block] at h1 h2
    obtain ⟨_, _, _, _, e1, _⟩ := h1
    obtain ⟨_, _, _, _, e2, _⟩ := h2
    omega

/-! ## Claims on the sweep -/

/-- Claim C2 as stated fails: when no fork fails, main calls fork_attempt
20480 times, which is 32 × 32 × 2 × (6 + 4), and not 65536 times. -/
theorem C2_count_is_not_65536 :
    (main (fun _ => false) ⟨[]⟩).state.calls.length = 32 * 32 * 2 * (6 + 4) ∧
    ¬ ((main (fun _ => false) ⟨[]⟩).state.calls.length = 65536) := by
  rw [main_run (fun _ => false) (fun _ => rfl)]
  simp only [Step.state, sweep_spec_length]
  decide

/-- Claim C2, amended: when no fork fails, the sweep performed by main calls
fork_attempt exactly 20480 = 32 × 32 × 2 × (6 + 4) times, and no configuration
tuple (width, height, opt_huffman, subsampling, format) is passed to
fork_attempt more than once. -/
theorem C2_sweep_count (fork_fails : Nat → Bool) (hfork : ∀ k, fork_fails k = false) :
    (main fork_fails ⟨[]⟩).state.calls.length = 20480 ∧
    (main fork_fails ⟨[]⟩).state.calls.Nodup := by
  rw [main_run fork_fails hfork]
  exact ⟨sweep_spec_length, sweep_spec_nodup⟩

/-- Claim C2, amended, at a concrete input: the environment in which no fork
fails. -/
theorem C2_sweep_count_witness :
    (∀ k : Nat, (fun _ : Nat => false) k = false) ∧
    (main (fun _ => false) ⟨[]⟩).state.calls.length = 20480 ∧
    (main (fun _ => false) ⟨[]⟩).state.calls.Nodup :=
  ⟨fun _ => rfl, C2_sweep_count (fun _ => false) (fun _ => rfl)⟩

/-- The cudaMalloc calls of a trial in which every call made succeeded: one
per channel below `n`, with the byte size `aw * ah` of that channel. -/
theorem malloc_mem_trace (o : Oracle) (size_x size_y : Int) (opt_huffman : Bool)
    (css : nvjpegChromaSubsampling_t) (fmt : nvjpegOutputFormat_t) (n : Nat)
    (cm mx my : Int) (hfmt : resolve_format fmt = some (n, cm))
    (hcss : resolve_mult fmt css = some (mx, my))
    (hok : all_ok o (fork_attempt_child o size_x size_y opt_huffman css fmt).proc.trace)
    (i sz : Nat) :
    Call.cudaMalloc i sz ∈ (fork_attempt_child o size_x size_y opt_huffman css fmt).proc.trace ↔
      i < n ∧ sz = to_size_t (plane_bytes size_x size_y mx my i) := by
  rw [(trace_of_all_ok o size_x size_y opt_huffman css fmt n cm mx my hfmt hcss hok).1]
  have h3 : Call.cudaMalloc i sz ≠ encode_call (alloc_pitch size_x mx n) size_x size_y css fmt := by
    unfold encode_call
    split <;> simp
  simp only [full_trace, alloc_calls, List.mem_append, List.mem_cons, List.mem_map,
    List.mem_range, List.mem_nil_iff, or_false, h3, reduceCtorEq, false_or, and_false,
    exists_false, Call.cudaMalloc.injEq]
  constructor
  · rintro ⟨j, hj, rfl, rfl⟩
    exact ⟨hj, rfl⟩
  · rintro ⟨hi, rfl⟩
    exact ⟨i, hi, rfl, rfl⟩

/-- Claim C1 as stated fails: for width 1, height 1, subsampling 4:4:4 and
channel 0 of the YUV format the allocated plane height is 1, which is not
divisible by 4. -/
theorem C1_height_not_aligned :
    ¬ (∀ (w h : Int) (css : nvjpegChromaSubsampling_t) (i : Nat) (mx my : Int),
      1 ≤ w → w ≤ 32 → 1 ≤ h → h ≤ 32 →
      resolve_mult NVJPEG_OUTPUT_YUV css = some (mx, my) → i < 3 →
      plane_aw w mx i % 4 = 0 ∧ plane_ah h my i % 4 = 0) := by
  intro hall
  have h := (hall 1 1 NVJPEG_CSS_444 0 1 1 (by decide) (by decide) (by decide) (by decide)
    (by decide) (by decide)).2
  revert h
  decide

/-- Claim C1, amended: for every width and height in [1,32], each of the six
subsampling values and every channel i below 3 of the YUV format, the pitch aw
is divisible by 4; the plane height ah is the height itself for channel 0 and
the height rounded up to the next multiple of mult_y for channels 1 and 2; and
in a trial whose calls all succeed img.pitch[i] holds that pitch aw. -/
theorem C1_pitch_aligned (w h : Int) (css : nvjpegChromaSubsampling_t) (i : Nat)
    (mx my : Int) (hw1 : 1 ≤ w) (hw2 : w ≤ 32) (hh1 : 1 ≤ h) (hh2 : h ≤ 32)
    (hcss : resolve_mult NVJPEG_OUTPUT_YUV css = some (mx, my)) (hi : i < 3) :
    plane_aw w mx i % 4 = 0 ∧
    (i = 0 → plane_ah h my i = h) ∧
    (i ≠ 0 → plane_ah h my i % my = 0 ∧ h ≤ plane_ah h my i ∧ plane_ah h my i < h + my) ∧
    (∀ (o : Oracle) (opt_huffman : Bool),
      all_ok o (fork_attempt_child o w h opt_huffman css NVJPEG_OUTPUT_YUV).proc.trace →
      (fork_attempt_child o w h opt_huffman css NVJPEG_OUTPUT_YUV).proc.pitch[i]?
        = some (some (plane_aw w mx i))) := by
  obtain ⟨hmx, hmy⟩ := resolve_mult_cases hcss
  obtain ⟨⟨_, _, ha⟩, _, _⟩ :=
    plane_bounds i hmx hmy hw1 hh1 (w := w) (h := h) (by omega) (by omega)
  refine ⟨ha, ?_, ?_, ?_⟩
  · rintro rfl
    exact plane_ah_zero h my
  · intro hi0
    rw [plane_ah_succ hi0 hmy (by omega) (by omega)]
    rcases hmy with rfl | rfl <;> omega
  · intro o opt_huffman hok
    rw [(trace_of_all_ok o w h opt_huffman css NVJPEG_OUTPUT_YUV 3 1 mx my rfl hcss hok).2]
    interval_cases i <;> simp [alloc_pitch]

/-- Claim C1, amended, at a concrete input: width 5, height 7, subsampling
4:2:0, channel 1. -/
theorem C1_pitch_aligned_witness :
    plane_aw 5 2 1 % 4 = 0 ∧
    ((1 : Nat) = 0 → plane_ah 7 2 1 = 7) ∧
    ((1 : Nat) ≠ 0 → plane_ah 7 2 1 % 2 = 0 ∧ 7 ≤ plane_ah 7 2 1 ∧ plane_ah 7 2 1 < 7 + 2) ∧
    (∀ (o : Oracle) (opt_huffman : Bool),
      all_ok o (fork_attempt_child o 5 7 opt_huffman NVJPEG_CSS_420 NVJPEG_OUTPUT_YUV).proc.trace →
      (fork_attempt_child o 5 7 opt_huffman NVJPEG_CSS_420 NVJPEG_OUTPUT_YUV).proc.pitch[1]?
        = some (some (plane_aw 5 2 1))) :=
  C1_pitch_aligned 5 7 NVJPEG_CSS_420 1 2 2 (by decide) (by decide) (by decide) (by decide)
    (by decide) (by decide)

/-- Claim C7 as stated fails: for width 1, height 1 and the YUV format with
subsampling 4:4:4, the pitch of channel 0 is 4, not the width 1, and the
trial allocates 4 bytes for channel 0, not 1 × 1. -/
theorem C7_channel_zero_pitch_rounded :
    ¬ (∀ (fmt : nvjpegOutputFormat_t) (css : nvjpegChromaSubsampling_t) (w h : Int)
      (n : Nat) (cm mx my : Int),
      resolve_format fmt = some (n, cm) → resolve_mult fmt css = some (mx, my) →
      1 ≤ w → 1 ≤ h →
      plane_aw w mx 0 = w ∧ plane_ah h my 0 = h ∧
      (to_size_t (plane_bytes w h mx my 0) : Int) = w * h) ∧
    Call.cudaMalloc 0 4 ∈
      (fork_attempt_child all_success 1 1 false NVJPEG_CSS_444 NVJPEG_OUTPUT_YUV).proc.trace := by
  constructor
  · intro hall
    have h := (hall NVJPEG_OUTPUT_YUV NVJPEG_CSS_444 1 1 3 1 1 1 (by decide) (by decide)
      (by decide) (by decide)).1
    revert h
    decide
  · rw [(trace_of_all_ok all_success 1 1 false NVJPEG_CSS_444 NVJPEG_OUTPUT_YUV 3 1 1 1
      rfl rfl (fun _ _ _ => rfl)).1]
    decide

/-- Claim C7, amended: for channel 0, every supported format and subsampling
and every width, height >= 1 that keep the `int` arithmetic free of overflow
(width + 3 and the product below stay under 2^31), the pitch aw is the width
rounded up to the next multiple of 4, the allocated height ah is the height
unmodified, and the allocated byte size, the one of the cudaMalloc call for
channel 0, is that pitch times the height. -/
theorem C7_channel_zero_geometry (fmt : nvjpegOutputFormat_t)
    (css : nvjpegChromaSubsampling_t) (w h : Int) (n : Nat) (cm mx my : Int)
    (hfmt : resolve_format fmt = some (n, cm)) (hcss : resolve_mult fmt css = some (mx, my))
    (hw : 1 ≤ w) (hh : 1 ≤ h) (hwb : w + 3 < 2147483648)
    (hb : (w + 3) / 4 * 4 * h < 2147483648) :
    plane_aw w mx 0 = (w + 3) / 4 * 4 ∧ plane_ah h my 0 = h ∧
    (to_size_t (plane_bytes w h mx my 0) : Int) = (w + 3) / 4 * 4 * h ∧
    (∀ (o : Oracle) (opt_huffman : Bool) (sz : Nat),
      all_ok o (fork_attempt_child o w h opt_huffman css fmt).proc.trace →
      Call.cudaMalloc 0 sz ∈ (fork_attempt_child o w h opt_huffman css fmt).proc.trace →
      (sz : Int) = (w + 3) / 4 * 4 * h) := by
  have ea : plane_aw w mx 0 = (w + 3) / 4 * 4 := plane_aw_zero (by omega) hwb
  have eh : plane_ah h my 0 = h := plane_ah_zero h my
  have hpos : 0 < (w + 3) / 4 * 4 * h := Int.mul_pos (by omega) (by omega)
  have eb : plane_bytes w h mx my 0 = (w + 3) / 4 * 4 * h := by
    unfold plane_bytes mul32
    rw [ea, eh]
    exact wrap32_id (by omega) hb
  have es : (to_size_t (plane_bytes w h mx my 0) : Int) = (w + 3) / 4 * 4 * h := by
    rw [eb]
    exact to_size_t_id (by omega) hb
  refine ⟨ea, eh, es, ?_⟩
  intro o opt_huffman sz hok hmem
  rw [malloc_mem_trace o w h opt_huffman css fmt n cm mx my hfmt hcss hok] at hmem
  rw [hmem.2]
  exact es

/-- Claim C7, amended, at a concrete input: width 5, height 7, format RGBI. -/
theorem C7_channel_zero_geometry_witness :
    plane_aw 5 1 0 = (5 + 3) / 4 * 4 ∧ plane_ah 7 1 0 = 7 ∧
    (to_size_t (plane_bytes 5 7 1 1 0) : Int) = (5 + 3) / 4 * 4 * 7 ∧
    (∀ (o : Oracle) (opt_huffman : Bool) (sz : Nat),
      all_ok o
        (fork_attempt_child o 5 7 opt_huffman NVJPEG_CSS_444 NVJPEG_OUTPUT_RGBI).proc.trace →
      Call.cudaMalloc 0 sz ∈
        (fork_attempt_child o 5 7 opt_huffman NVJPEG_CSS_444 NVJPEG_OUTPUT_RGBI).proc.trace →
      (sz : Int) = (5 + 3) / 4 * 4 * 7) :=
  C7_channel_zero_geometry NVJPEG_OUTPUT_RGBI NVJPEG_CSS_444 5 7 1 3 1 1 (by decide)
    (by decide) (by decide) (by decide) (by decide) (by decide)

/-- Claim C8 as stated fails: for width 65536 and height 65536 (YUV, 4:4:4,
channel 0) the `int` product aw * ah is 2^32, which does not fit a 32-bit
`int`; the wrapped value handed to cudaMalloc is 0. -/
theorem C8_size_overflows :
    ¬ (∀ (fmt : nvjpegOutputFormat_t) (css : nvjpegChromaSubsampling_t) (w h : Int)
      (n : Nat) (cm mx my : Int) (i : Nat),
      resolve_format fmt = some (n, cm) → resolve_mult fmt css = some (mx, my) →
      1 ≤ w → 1 ≤ h → i < n →
      0 < to_size_t (plane_bytes w h mx my i) ∧ to_size_t (plane_bytes w h mx my i) % 4 = 0 ∧
      (mx = 1 ∨ mx = 2 ∨ mx = 4) ∧ (my = 1 ∨ my = 2)) ∧
    Call.cudaMalloc 0 0 ∈
      (fork_attempt_child all_success 65536 65536 false NVJPEG_CSS_444
        NVJPEG_OUTPUT_YUV).proc.trace := by
  constructor
  · intro hall
    have h := (hall NVJPEG_OUTPUT_YUV NVJPEG_CSS_444 65536 65536 3 1 1 1 0 (by decide)
      (by decide) (by decide) (by decide) (by decide)).1
    revert h
    decide
  · rw [(trace_of_all_ok all_success 65536 65536 false NVJPEG_CSS_444 NVJPEG_OUTPUT_YUV 3 1 1 1
      rfl rfl (fun _ _ _ => rfl)).1]
    decide

/-- Claim C8, amended: for every width >= 1 and height >= 1 with
(width + 3) * (height + 1) < 2^31, which keeps the `int` arithmetic free of
overflow, every supported format and subsampling and every channel index, the
byte size aw * ah passed to the allocator is strictly positive and a multiple
of 4 (so is the size of every cudaMalloc call of a trial whose calls all
succeed), and every divisor of the geometry computation is non-zero: mult_x is
1, 2 or 4, mult_y is 1 or 2, and the constant is 4. -/
theorem C8_allocation_positive (fmt : nvjpegOutputFormat_t)
    (css : nvjpegChromaSubsampling_t) (w h : Int) (n : Nat) (cm mx my : Int) (i : Nat)
    (hfmt : resolve_format fmt = some (n, cm)) (hcss : resolve_mult fmt css = some (mx, my))
    (hw : 1 ≤ w) (hh : 1 ≤ h) (hb : (w + 3) * (h + 1) < 2147483648) (_hi : i < n) :
    0 < to_size_t (plane_bytes w h mx my i) ∧ to_size_t (plane_bytes w h mx my i) % 4 = 0 ∧
    (to_size_t (plane_bytes w h mx my i) : Int) = plane_aw w mx i * plane_ah h my i ∧
    (mx = 1 ∨ mx = 2 ∨ mx = 4) ∧ (my = 1 ∨ my = 2) ∧
    (∀ (o : Oracle) (opt_huffman : Bool) (j sz : Nat),
      all_ok o (fork_attempt_child o w h opt_huffman css fmt).proc.trace →
      Call.cudaMalloc j sz ∈ (fork_attempt_child o w h opt_huffman css fmt).proc.trace →
      0 < sz ∧ sz % 4 = 0) := by
  obtain ⟨hmx, hmy⟩ := resolve_mult_cases hcss
  have hpos : 0 < w * h := Int.mul_pos (by omega) (by omega)
  have key : ∀ j : Nat, 0 < to_size_t (plane_bytes w h mx my j) ∧
      to_size_t (plane_bytes w h mx my j) % 4 = 0 ∧
      (to_size_t (plane_bytes w h mx my j) : Int) = plane_aw w mx j * plane_ah h my j := by
    intro j
    obtain ⟨e, hlo, hhi, hmod⟩ := plane_bytes_bounds j hmx hmy hw hh hb
    have hs := to_size_t_id (v := plane_bytes w h mx my j) (by omega) hhi
    refine ⟨by omega, by omega, ?_⟩
    rw [hs, e]
  refine ⟨(key i).1, (key i).2.1, (key i).2.2, hmx, hmy, ?_⟩
  intro o opt_huffman j sz hok hmem
  rw [malloc_mem_trace o w h opt_huffman css fmt n cm mx my hfmt hcss hok] at hmem
  rw [hmem.2]
  exact ⟨(key j).1, (key j).2.1⟩

/-- Claim C8, amended, at a concrete input: width 1, height 1, subsampling
4:1:0, channel 2 of the YUV format. -/
theorem C8_allocation_positive_witness :
    0 < to_size_t (plane_bytes 1 1 4 2 2) ∧ to_size_t (plane_bytes 1 1 4 2 2) % 4 = 0 ∧
    (to_size_t (plane_bytes 1 1 4 2 2) : Int) = plane_aw 1 4 2 * plane_ah 1 2 2 ∧
    ((4 : Int) = 1 ∨ (4 : Int) = 2 ∨ (4 : Int) = 4) ∧ ((2 : Int) = 1 ∨ (2 : Int) = 2) ∧
    (∀ (o : Oracle) (opt_huffman : Bool) (j sz : Nat),
      all_ok o
        (fork_attempt_child o 1 1 opt_huffman NVJPEG_CSS_410 NVJPEG_OUTPUT_YUV).proc.trace →
      Call.cudaMalloc j sz ∈
        (fork_attempt_child o 1 1 opt_huffman NVJPEG_CSS_410 NVJPEG_OUTPUT_YUV).proc.trace →
      0 < sz ∧ sz % 4 = 0) :=
  C8_allocation_positive NVJPEG_OUTPUT_YUV NVJPEG_CSS_410 1 1 3 1 4 2 2 (by decide)
    (by decide) (by decide) (by decide) (by decide) (by decide)

/-- Claim C10 at the failing input width 2, height 1, format RGBI, channel 0:
the format resolves to one channel of multiplicity 3, so a row holds 2 × 3 = 6
samples, yet the pitch is 4 and the allocated size is 4 bytes; the trial
allocates 4 bytes and hands the encoder the pitch 4. -/
theorem C10_interleaved_plane_too_small :
    resolve_format NVJPEG_OUTPUT_RGBI = some (1, 3) ∧
    resolve_mult NVJPEG_OUTPUT_RGBI NVJPEG_CSS_444 = some (1, 1) ∧
    plane_aw 2 1 0 = 4 ∧ plane_aw 2 1 0 < 2 * 3 ∧
    to_size_t (plane_bytes 2 1 1 1 0) = 4 ∧
    (to_size_t (plane_bytes 2 1 1 1 0) : Int) < 2 * 1 * 3 ∧
    Call.cudaMalloc 0 4 ∈
      (fork_attempt_child all_success 2 1 false NVJPEG_CSS_444 NVJPEG_OUTPUT_RGBI).proc.trace ∧
    Call.nvjpegEncodeImage [some 4, none, none, none] NVJPEG_OUTPUT_RGBI 2 1 ∈
      (fork_attempt_child all_success 2 1 false NVJPEG_CSS_444 NVJPEG_OUTPUT_RGBI).proc.trace := by
  rw [(trace_of_all_ok all_success 2 1 false NVJPEG_CSS_444 NVJPEG_OUTPUT_RGBI 1 3 1 1
    rfl rfl (fun _ _ _ => rfl)).1]
  decide

end NvjpegSweep
